import Mathlib

/-!
# Heater control system: embedding of `src/main.cpp`

The firmware keeps its whole state in global variables and mutates them from
`processKeypad`, `readTemperature`, `controlHeater`, `setState`,
`updateSystemState` and `loop`.  Here the globals are the fields of one record,
`Controller`, and each `void` function is a function `Controller → Controller`
that takes what it reads from the hardware as extra arguments:

* the value returned by `millis()` (`now`): one value per call of a function,
  and one value for all the reads of one pass of `loop`;
* the key returned by `numpad.getKey()` (`key`, the NUL character when no key
  is pressed);
* the value returned by `sensor.getTempCByIndex(0)` (`reading`).

Numbers.  `currTemp` is a C `float`; it is modelled by a rational number.  The
firmware only compares it with `targetTemp ± 4.0`, `targetTemp - 0.5`,
`MAX_TEMP` and `MAX_TEMP - 5`; these are computed without rounding for every
`targetTemp` of magnitude below `2^24`, which covers every value the keypad
can store (`1 … 125`) and `0`.  NaN and infinities are not modelled: the
sensor library never returns them.  `unsigned long` is 32 bits wide on the
ESP32: clock values are natural numbers and the subtraction
`millis() - stateStartTime` is taken modulo `2^32`.

Outputs.  `heaterPin` is the level last written with
`digitalWrite(HEATER_PIN, _)` (`true` for `HIGH`), `servoPos` the value last
passed to `myServo.write`.  Text written to `Serial` is not modelled.
-/

namespace Heater

/-- The enum `TempSystemState` of the firmware. -/
inductive TempSystemState where
  | STATE_IDLE
  | STATE_HEATING
  | STATE_STABILIZING
  | STATE_TARGET_REACHED
  | STATE_OVERHEAT
  deriving DecidableEq, Repr

open TempSystemState

/-- The macro `MAX_TEMP` (`#define MAX_TEMP 125`). -/
def MAX_TEMP : Int := 125

/-- The constant `const int STABILIZE_TIME_MS = 5000`, compared with an
`unsigned long`. -/
def STABILIZE_TIME_MS : Nat := 5000

/-- The constant `const float TEMP_TOLERANCE = 4.0`. -/
def TEMP_TOLERANCE : ℚ := 4

/-- The macro `TEMP_CHECK_MS` (`#define TEMP_CHECK_MS 1000`). -/
def TEMP_CHECK_MS : Nat := 1000

/-- The macro `DISPLAY_UPDATE_MS` (`#define DISPLAY_UPDATE_MS 2000`). -/
def DISPLAY_UPDATE_MS : Nat := 2000

/-- The sentinel `DEVICE_DISCONNECTED_C` of the DallasTemperature library
(`-127`), returned by `getTempCByIndex` when the sensor does not answer. -/
def DEVICE_DISCONNECTED_C : ℚ := -127

/-- Number of values of an `unsigned long` on the ESP32 (`2^32`). -/
def ULONG_MOD : Nat := 4294967296

/-- The value `millis()` returns when the board has been up for `uptime`
milliseconds: the low 32 bits. -/
def millis (uptime : Nat) : Nat := uptime % ULONG_MOD

/-- The subtraction `a - b` of two `unsigned long` values. -/
def ulongSub (a b : Nat) : Nat := (a % ULONG_MOD + (ULONG_MOD - b % ULONG_MOD)) % ULONG_MOD

/-- The global variables of the firmware, plus the two actuator outputs. -/
structure Controller where
  currState : TempSystemState
  lastState : TempSystemState
  stateStartTime : Nat
  tempLastChecked : Nat
  lastDisplayUpdate : Nat
  currTemp : ℚ
  targetTemp : Int
  heaterRunning : Bool
  tempInput : List Char
  inputting : Bool
  heaterPin : Bool
  servoPos : Int
  deriving DecidableEq

/-- The globals as their initialisers leave them, with the outputs as `setup`
writes them (`digitalWrite(HEATER_PIN, LOW)`, `myServo.write(0)`). -/
def initial : Controller where
  currState := STATE_IDLE
  lastState := STATE_IDLE
  stateStartTime := 0
  tempLastChecked := 0
  lastDisplayUpdate := 0
  currTemp := 0
  targetTemp := 0
  heaterRunning := false
  tempInput := []
  inputting := false
  heaterPin := false
  servoPos := 0

/-- The function `isAtTarget`. -/
def isAtTarget (s : Controller) : Bool :=
  decide ((s.targetTemp : ℚ) - TEMP_TOLERANCE ≤ s.currTemp) &&
    decide (s.currTemp ≤ (s.targetTemp : ℚ) + TEMP_TOLERANCE)

/-- The function `setState`; `now` is what `millis()` returns. -/
def setState (newState : TempSystemState) (now : Nat) (s : Controller) : Controller :=
  if newState = s.currState then s
  else { s with lastState := s.currState, currState := newState, stateStartTime := now }

/-- The `switch (currState)` of `updateSystemState`; `stateTime` was computed
on entry of the function. -/
def stateSwitch (stateTime now : Nat) (s : Controller) : Controller :=
  match s.currState with
  | STATE_IDLE =>
    if s.currTemp < (s.targetTemp : ℚ) - TEMP_TOLERANCE then setState STATE_HEATING now s
    else if isAtTarget s then setState STATE_TARGET_REACHED now s
    else s
  | STATE_HEATING =>
    if isAtTarget s then setState STATE_STABILIZING now s else s
  | STATE_STABILIZING =>
    if STABILIZE_TIME_MS ≤ stateTime ∧ isAtTarget s = true then
      setState STATE_TARGET_REACHED now s
    else if s.currTemp < (s.targetTemp : ℚ) - TEMP_TOLERANCE then setState STATE_HEATING now s
    else s
  | STATE_TARGET_REACHED =>
    if s.currTemp < (s.targetTemp : ℚ) - TEMP_TOLERANCE then setState STATE_HEATING now s
    else s
  | STATE_OVERHEAT =>
    if s.currTemp < ((MAX_TEMP - 5 : Int) : ℚ) then
      if isAtTarget s then setState STATE_TARGET_REACHED now s
      else if s.currTemp < (s.targetTemp : ℚ) - TEMP_TOLERANCE then setState STATE_HEATING now s
      else setState STATE_IDLE now s
    else s

/-- The function `updateSystemState`; `now` is what `millis()` returns. -/
def updateSystemState (now : Nat) (s : Controller) : Controller :=
  let stateTime := ulongSub now s.stateStartTime
  if (MAX_TEMP : ℚ) ≤ s.currTemp then setState STATE_OVERHEAT now s
  else if s.heaterRunning = false ∨ s.targetTemp ≤ 0 then setState STATE_IDLE now s
  else
    let s1 :=
      if (s.targetTemp : ℚ) + TEMP_TOLERANCE < s.currTemp then setState STATE_IDLE now s
      else s
    stateSwitch stateTime now s1

/-- The function `controlHeater`. -/
def controlHeater (s : Controller) : Controller :=
  if s.currState = STATE_OVERHEAT then { s with heaterPin := false, servoPos := 0 }
  else if s.heaterRunning = false ∨ s.targetTemp ≤ 0 then
    { s with heaterPin := false, servoPos := 0 }
  else if s.currState = STATE_HEATING then
    { s with heaterPin := true, servoPos := s.targetTemp }
  else if s.currState = STATE_STABILIZING then
    if s.currTemp < (s.targetTemp : ℚ) then
      { s with heaterPin := true, servoPos := s.targetTemp }
    else { s with heaterPin := false }
  else if s.currState = STATE_TARGET_REACHED then
    let s1 :=
      if s.currTemp < (s.targetTemp : ℚ) - 1 / 2 then { s with heaterPin := true }
      else if (s.targetTemp : ℚ) ≤ s.currTemp then { s with heaterPin := false }
      else s
    { s1 with servoPos := s.targetTemp }
  else { s with heaterPin := false, servoPos := 0 }

/-- The function `readTemperature`; `reading` is what the sensor returns. -/
def readTemperature (reading : ℚ) (s : Controller) : Controller :=
  if reading = DEVICE_DISCONNECTED_C then s else { s with currTemp := reading }

/-- The C function `isspace` on the characters a key or a string can hold. -/
def isSpace (c : Char) : Bool :=
  c = ' ' || c = '\t' || c = '\n' || c = '\r' || c = Char.ofNat 11 || c = Char.ofNat 12

/-- The digits at the head of a string, read in base ten onto `acc`. -/
def readDigits (acc : Nat) : List Char → Nat
  | [] => acc
  | c :: cs => if c.isDigit then readDigits (acc * 10 + (c.toNat - 48)) cs else acc

/-- The method `String::toInt` of the Arduino core (`atol`): leading blanks
are skipped, a sign is read, then the digits up to the first other character.
The firmware calls it on strings of at most three characters only, where the
result fits an `int`. -/
def toInt (str : List Char) : Int :=
  match str.dropWhile isSpace with
  | '-' :: rest => -(readDigits 0 rest : Int)
  | '+' :: rest => (readDigits 0 rest : Int)
  | rest => (readDigits 0 rest : Int)

/-- The function `processKeypad`; `key` is what `numpad.getKey()` returns (NUL
for no key), `now` is what `millis()` returns. -/
def processKeypad (key : Char) (now : Nat) (s : Controller) : Controller :=
  if key = Char.ofNat 0 then s
  else if key = 'A' then { s with inputting := true, tempInput := [] }
  else if key = 'C' then
    setState STATE_IDLE now
      { s with heaterRunning := false, targetTemp := 0, heaterPin := false, servoPos := 0,
               inputting := false }
  else if key = '#' ∧ s.inputting = true then
    if s.tempInput.length < 2 ∨ 3 < s.tempInput.length then { s with tempInput := [] }
    else
      let temp := toInt s.tempInput
      if temp ≤ 0 ∨ MAX_TEMP < temp then { s with tempInput := [] }
      else
        let s1 := { s with targetTemp := temp, heaterRunning := true, inputting := false }
        if s1.currTemp < (s1.targetTemp : ℚ) - TEMP_TOLERANCE then setState STATE_HEATING now s1
        else if isAtTarget s1 then setState STATE_STABILIZING now s1
        else s1
  else if s.inputting = true ∧ key.isDigit = true then
    if s.tempInput.length < 3 then { s with tempInput := s.tempInput ++ [key] } else s
  else s

/-- The three calls `loop` makes when the temperature check is due:
`readTemperature(); controlHeater(); updateSystemState();`. -/
def controlTick (reading : ℚ) (now : Nat) (s : Controller) : Controller :=
  updateSystemState now (controlHeater (readTemperature reading s))

/-- The function `loop`: one pass, with the key, the sensor value and the
clock value it would read.  `displayStatus` only prints. -/
def loop (key : Char) (reading : ℚ) (now : Nat) (s : Controller) : Controller :=
  let s1 := processKeypad key now s
  let s2 :=
    if TEMP_CHECK_MS ≤ ulongSub now s1.tempLastChecked then
      controlTick reading now { s1 with tempLastChecked := now }
    else s1
  if DISPLAY_UPDATE_MS ≤ ulongSub now s2.lastDisplayUpdate ∧ s2.inputting = false then
    { s2 with lastDisplayUpdate := now }
  else s2

/-! ## Running the firmware on a sequence of inputs -/

/-- A sequence of control ticks, each with the sensor value and the clock
value it reads. -/
def runTicks : List (ℚ × Nat) → Controller → Controller
  | [], s => s
  | (reading, now) :: rest, s => runTicks rest (controlTick reading now s)

/-- The modes at the end of each tick of a sequence of control ticks. -/
def modeTrace : List (ℚ × Nat) → Controller → List TempSystemState
  | [], _ => []
  | (reading, now) :: rest, s =>
    (controlTick reading now s).currState :: modeTrace rest (controlTick reading now s)

/-- A sequence of passes of `loop`, each with the key, the sensor value and
the clock value it reads. -/
def runLoop : List (Char × ℚ × Nat) → Controller → Controller
  | [], s => s
  | (key, reading, now) :: rest, s => runLoop rest (loop key reading now s)

/-- One event of the firmware: a key read by `processKeypad`, or a due control
tick with the sensor value it reads; each with the clock value it reads. -/
inductive Event where
  | key (k : Char) (now : Nat)
  | tick (reading : ℚ) (now : Nat)

/-- The effect of one event on the controller. -/
def applyEvent : Event → Controller → Controller
  | Event.key k now, s => processKeypad k now s
  | Event.tick reading now, s => controlTick reading now s

/-- A sequence of key events and control ticks, in any order. -/
def runEvents : List Event → Controller → Controller
  | [], s => s
  | e :: rest, s => runEvents rest (applyEvent e s)

/-! ## Reference definitions, written from the specification -/

/-- The transition table as the specification words it: the next mode from
the mode at the start of the tick, the target, the reading and the dwell
time, for an active target and a reading below `MAX_TEMP`. -/
def tableReference (mode : TempSystemState) (target : Int) (reading : ℚ) (dwell : Nat) :
    TempSystemState :=
  if (target : ℚ) + 4 < reading then STATE_IDLE
  else
    match mode with
    | STATE_IDLE =>
      if reading < (target : ℚ) - 4 then STATE_HEATING
      else if |reading - (target : ℚ)| ≤ 4 then STATE_TARGET_REACHED
      else STATE_IDLE
    | STATE_HEATING =>
      if |reading - (target : ℚ)| ≤ 4 then STATE_STABILIZING else STATE_HEATING
    | STATE_STABILIZING =>
      if 5000 ≤ dwell ∧ |reading - (target : ℚ)| ≤ 4 then STATE_TARGET_REACHED
      else if reading < (target : ℚ) - 4 then STATE_HEATING
      else STATE_STABILIZING
    | STATE_TARGET_REACHED =>
      if reading < (target : ℚ) - 4 then STATE_HEATING else STATE_TARGET_REACHED
    | STATE_OVERHEAT =>
      if 120 ≤ reading then STATE_OVERHEAT
      else if |reading - (target : ℚ)| ≤ 4 then STATE_TARGET_REACHED
      else STATE_HEATING

/-- The number a string of decimal digits denotes. -/
def decimalValue (digits : List Char) : Nat :=
  digits.foldl (fun acc c => acc * 10 + (c.toNat - '0'.toNat)) 0

/-- The acceptance condition of the specification for a confirmed entry: two
or three digits, and a value in `(0, 125]`. -/
def validEntry (digits : List Char) : Prop :=
  (digits.length = 2 ∨ digits.length = 3) ∧ 0 < decimalValue digits ∧ decimalValue digits ≤ 125

instance (digits : List Char) : Decidable (validEntry digits) := by
  unfold validEntry; infer_instance

/-- The variant of `updateSystemState` the specification contrasts with the
code: the same two guards, then the mode table on the mode at the start of
the tick, and the drift-out override (`reading > target + 4.0` forces
`STATE_IDLE`) as the final step. -/
def updateSystemStateOverrideLast (now : Nat) (s : Controller) : Controller :=
  if (MAX_TEMP : ℚ) ≤ s.currTemp then setState STATE_OVERHEAT now s
  else if s.heaterRunning = false ∨ s.targetTemp ≤ 0 then setState STATE_IDLE now s
  else
    let s1 := stateSwitch (ulongSub now s.stateStartTime) now s
    if (s1.targetTemp : ℚ) + 4 < s1.currTemp then setState STATE_IDLE now s1 else s1

/-- The target invariant: the target lies in `0 … 125` and `heaterRunning`
holds exactly when the target is positive. -/
def targetInvariant (s : Controller) : Prop :=
  0 ≤ s.targetTemp ∧ s.targetTemp ≤ 125 ∧ (s.heaterRunning = true ↔ 0 < s.targetTemp)

/-- The heater invariant: the heater pin is HIGH only with an active target. -/
def heaterInvariant (s : Controller) : Prop :=
  s.heaterPin = true → s.heaterRunning = true ∧ 0 < s.targetTemp

/-- The state on which `updateSystemState` enters its `switch`, once the
overheat and no-target guards are passed: the drift-out check has run. -/
def switchEntry (now : Nat) (s : Controller) : Controller :=
  if (s.targetTemp : ℚ) + TEMP_TOLERANCE < s.currTemp then setState STATE_IDLE now s else s

/-- The path condition of the final `else` of the `STATE_OVERHEAT` case of
`updateSystemState` (its `setState(STATE_IDLE)`): both guards are passed, the
`switch` is entered in `STATE_OVERHEAT`, the reading is below `MAX_TEMP - 5`,
not at the target and not below `targetTemp - TEMP_TOLERANCE`. -/
def overheatElseReached (now : Nat) (s : Controller) : Prop :=
  ¬ (MAX_TEMP : ℚ) ≤ s.currTemp ∧ ¬ (s.heaterRunning = false ∨ s.targetTemp ≤ 0) ∧
    (switchEntry now s).currState = STATE_OVERHEAT ∧
    (switchEntry now s).currTemp < ((MAX_TEMP - 5 : Int) : ℚ) ∧
    ¬ isAtTarget (switchEntry now s) = true ∧
    ¬ (switchEntry now s).currTemp < ((switchEntry now s).targetTemp : ℚ) - TEMP_TOLERANCE

/-! ## Concrete states and runs used as examples -/

/-- A controller heating towards 100 degrees with a reading of 90. -/
def heatingAt90 : Controller :=
  { initial with
    currState := STATE_HEATING, targetTemp := 100, heaterRunning := true, currTemp := 90,
    heaterPin := true, servoPos := 100 }

/-- A controller holding 100 degrees in `STATE_TARGET_REACHED`. -/
def holdingAt100 : Controller :=
  { initial with
    currState := STATE_TARGET_REACHED, lastState := STATE_STABILIZING, targetTemp := 100,
    heaterRunning := true, currTemp := 100, servoPos := 100 }

/-- A controller in `STATE_OVERHEAT` with target 100 and a reading of 126. -/
def overheatedAt126 : Controller :=
  { initial with
    currState := STATE_OVERHEAT, lastState := STATE_HEATING, targetTemp := 100,
    heaterRunning := true, currTemp := 126 }

/-- A controller without target that went to `STATE_OVERHEAT` and now reads
121 degrees. -/
def idleOverheated : Controller :=
  { initial with currState := STATE_OVERHEAT, currTemp := 121 }

/-- A controller without target whose reading is 126 degrees. -/
def idleAt126 : Controller :=
  { initial with currTemp := 126 }

/-- A controller in `STATE_IDLE` with target 100, as the scenario of the
specification starts. -/
def idleTarget100 : Controller :=
  { initial with targetTemp := 100, heaterRunning := true }

/-- A controller in entry mode holding the digits typed so far. -/
def entering (digits : List Char) : Controller :=
  { initial with inputting := true, tempInput := digits }

/-- The passes of `loop` of a session: the operator types `A 1 0 0 #`, the
sensor reads 90 degrees at the first control tick and 126 at the second. -/
def overheatSession : List (Char × ℚ × Nat) :=
  [('A', 90, 100), ('1', 90, 200), ('0', 90, 300), ('0', 90, 400), ('#', 90, 500),
   (Char.ofNat 0, 90, 1000), (Char.ofNat 0, 126, 2000)]

/-- The ticks of the scenario of the specification, at concrete clock values:
readings 80, 98, 100, 100, 100, 96; `STATE_STABILIZING` is entered at 2000 ms
and the fifth tick is taken 5100 ms later. -/
def scenarioTicks : List (ℚ × Nat) :=
  [(80, 1000), (98, 2000), (100, 3000), (100, 4000), (100, 7100), (96, 8100)]

/-- A controller holding 100 degrees in `STATE_TARGET_REACHED` with a reading
of 99.75, inside the half-degree band below the target. -/
def holdingJustBelow : Controller :=
  { holdingAt100 with currTemp := 399 / 4 }

/-- A controller in `STATE_IDLE` without target, reading 80 degrees, with the
entry `80` typed. -/
def enteringEightyAt80 : Controller :=
  { initial with currTemp := 80, inputting := true, tempInput := ['8', '0'] }

/-- A session of key events and control ticks: target 100 is entered, the
heater runs, then the cancel key is pressed and a tick follows. -/
def cancelSession : List Event :=
  [Event.key 'A' 100, Event.key '1' 200, Event.key '0' 300, Event.key '0' 400,
   Event.key '#' 500, Event.tick 90 1000, Event.tick 95 2000, Event.key 'C' 2500,
   Event.tick 95 3000]

/-! ## Basic facts about `setState` -/

theorem setState_currState (m : TempSystemState) (now : Nat) (s : Controller) :
    (setState m now s).currState = m := by
  unfold setState
  split
  · next h => exact h.symm
  · rfl

theorem setState_frame (m : TempSystemState) (now : Nat) (s : Controller) :
    (setState m now s).currTemp = s.currTemp ∧ (setState m now s).targetTemp = s.targetTemp ∧
      (setState m now s).heaterRunning = s.heaterRunning ∧
      (setState m now s).heaterPin = s.heaterPin ∧ (setState m now s).servoPos = s.servoPos ∧
      (setState m now s).inputting = s.inputting ∧ (setState m now s).tempInput = s.tempInput := by
  unfold setState
  split <;> simp

/-! ## Safety override and forced-off outputs -/

/-- C1. Whenever the current reading is at least `MAX_TEMP = 125`,
`updateSystemState` leaves the mode equal to `STATE_OVERHEAT`, whatever the
prior mode, the target, `heaterRunning` and the dwell time. -/
theorem overheat_forces_mode (now : Nat) (s : Controller) (h : (125 : ℚ) ≤ s.currTemp) :
    (updateSystemState now s).currState = STATE_OVERHEAT := by
  have h' : (MAX_TEMP : ℚ) ≤ s.currTemp := by simpa [MAX_TEMP] using h
  simp only [updateSystemState, if_pos h']
  exact setState_currState _ _ _

/-- C1, at a concrete state: heating towards 100 with a reading of 126. -/
theorem overheat_forces_mode_witness :
    (125 : ℚ) ≤ ({ heatingAt90 with currTemp := 126 } : Controller).currTemp ∧
      (updateSystemState 2000 { heatingAt90 with currTemp := 126 }).currState
        = STATE_OVERHEAT :=
  ⟨by norm_num, overheat_forces_mode 2000 _ (by norm_num)⟩

/-- C2, the code at the failing input.  After the operator has set the target
to 100 and one tick has read 90 degrees the controller is heating; the tick
that reads 126 degrees ends in `STATE_OVERHEAT` with the heater pin HIGH and
the actuator at 100, because `controlHeater` ran on the mode of the previous
tick. -/
theorem overheat_tick_leaves_heater_on :
    (runLoop (overheatSession.take 6) initial).currState = STATE_HEATING ∧
      (runLoop overheatSession initial).currTemp = 126 ∧
      (runLoop overheatSession initial).currState = STATE_OVERHEAT ∧
      (runLoop overheatSession initial).heaterPin = true ∧
      (runLoop overheatSession initial).servoPos = 100 := by
  decide!

/-- C3 as stated fails: with no target and a reading of 126 degrees the mode
after `updateSystemState` is `STATE_OVERHEAT`, not `STATE_IDLE`. -/
theorem no_target_idle_counterexample :
    idleAt126.targetTemp ≤ 0 ∧ (updateSystemState 1000 idleAt126).currState ≠ STATE_IDLE := by
  decide!

/-- C3, amended.  When the reading is below `MAX_TEMP = 125` and there is no
active target (`heaterRunning` false or `targetTemp ≤ 0`), the mode after
`updateSystemState` is `STATE_IDLE`, whatever the prior mode. -/
theorem no_target_forces_idle (now : Nat) (s : Controller) (hr : s.currTemp < 125)
    (h : s.heaterRunning = false ∨ s.targetTemp ≤ 0) :
    (updateSystemState now s).currState = STATE_IDLE := by
  have h' : ¬ (MAX_TEMP : ℚ) ≤ s.currTemp := by simpa [MAX_TEMP] using hr
  simp only [updateSystemState, if_neg h', if_pos h]
  exact setState_currState _ _ _

/-- C3 amended, at a concrete state: target cancelled while overheated, the
reading back at 121 degrees. -/
theorem no_target_forces_idle_witness :
    idleOverheated.currTemp < 125 ∧ idleOverheated.targetTemp ≤ 0 ∧
      (updateSystemState 3000 idleOverheated).currState = STATE_IDLE :=
  ⟨by norm_num [idleOverheated], by decide,
    no_target_forces_idle 3000 idleOverheated (by norm_num [idleOverheated])
      (Or.inr (by decide))⟩

/-- C4. In `STATE_OVERHEAT`, or without an active target (`heaterRunning`
false or `targetTemp ≤ 0`), `controlHeater` writes the heater pin LOW and the
actuator position 0, whatever the reading, the target and the outputs
commanded before. -/
theorem controlHeater_forced_off (s : Controller)
    (h : s.currState = STATE_OVERHEAT ∨ s.heaterRunning = false ∨ s.targetTemp ≤ 0) :
    (controlHeater s).heaterPin = false ∧ (controlHeater s).servoPos = 0 := by
  unfold controlHeater
  by_cases ho : s.currState = STATE_OVERHEAT
  · simp [ho]
  · have hn : s.heaterRunning = false ∨ s.targetTemp ≤ 0 := h.resolve_left ho
    simp only [if_neg ho, if_pos hn, and_self]

/-- C4, at a concrete state: overheated with target 100 and the heater pin
still HIGH from the tick before. -/
theorem controlHeater_forced_off_witness :
    (controlHeater { overheatedAt126 with heaterPin := true, servoPos := 100 }).heaterPin = false ∧
      (controlHeater { overheatedAt126 with heaterPin := true, servoPos := 100 }).servoPos = 0 :=
  controlHeater_forced_off _ (Or.inl rfl)

/-! ## The keypad: setpoint validation and cancel -/

theorem readDigits_eq_foldl (digits : List Char) (hd : ∀ c ∈ digits, c.isDigit = true)
    (acc : Nat) :
    readDigits acc digits = digits.foldl (fun a c => a * 10 + (c.toNat - '0'.toNat)) acc := by
  induction digits generalizing acc with
  | nil => rfl
  | cons c cs ih =>
    have hc : c.isDigit = true := hd c (List.mem_cons_self c cs)
    have hcs : ∀ d ∈ cs, d.isDigit = true := fun d hmem => hd d (List.mem_cons_of_mem c hmem)
    simp only [readDigits, hc, if_true, List.foldl_cons]
    exact ih hcs _

theorem isSpace_of_isDigit (c : Char) (hc : c.isDigit = true) : isSpace c = false := by
  have key : ∀ d : Char, d.isDigit = false → c ≠ d := by
    intro d hdig heq
    rw [heq, hdig] at hc
    exact Bool.false_ne_true hc
  simp [isSpace, key ' ' (by decide), key '\t' (by decide), key '\n' (by decide),
    key '\r' (by decide), key (Char.ofNat 11) (by decide), key (Char.ofNat 12) (by decide)]

/-- On a string of decimal digits `toInt` returns the number the digits
denote. -/
theorem toInt_digits (digits : List Char) (hd : ∀ c ∈ digits, c.isDigit = true) :
    toInt digits = (decimalValue digits : Int) := by
  cases digits with
  | nil => rfl
  | cons c cs =>
    have hc : c.isDigit = true := hd c (List.mem_cons_self c cs)
    have hsp : isSpace c = false := isSpace_of_isDigit c hc
    have hminus : c ≠ '-' := by
      intro heq; rw [heq] at hc; exact absurd hc (by decide)
    have hplus : c ≠ '+' := by
      intro heq; rw [heq] at hc; exact absurd hc (by decide)
    have hdrop : (c :: cs).dropWhile isSpace = c :: cs := by
      simp [List.dropWhile, hsp]
    unfold toInt
    rw [hdrop]
    split
    · next heq => exact absurd (List.cons.inj heq).1 hminus
    · next heq => exact absurd (List.cons.inj heq).1 hplus
    · rw [readDigits_eq_foldl (c :: cs) hd 0]; rfl

/-- C5. When the confirm key `#` is processed during an entry whose
accumulator holds decimal digits, the entry is accepted (the entry mode is
closed) if and only if it has two or three digits and its value `v` satisfies
`0 < v ≤ 125`; on acceptance `targetTemp` becomes `v` and `heaterRunning`
becomes true; on rejection `targetTemp`, `heaterRunning` and the mode are
unchanged and the accumulator is emptied. -/
theorem setpoint_validation (now : Nat) (s : Controller) (hin : s.inputting = true)
    (hd : ∀ c ∈ s.tempInput, c.isDigit = true) :
    ((processKeypad '#' now s).inputting = false ↔ validEntry s.tempInput) ∧
      (validEntry s.tempInput →
        (processKeypad '#' now s).targetTemp = (decimalValue s.tempInput : Int) ∧
          (processKeypad '#' now s).heaterRunning = true) ∧
      (¬ validEntry s.tempInput →
        (processKeypad '#' now s).targetTemp = s.targetTemp ∧
          (processKeypad '#' now s).heaterRunning = s.heaterRunning ∧
          (processKeypad '#' now s).currState = s.currState ∧
          (processKeypad '#' now s).tempInput = []) := by
  have hnul : ('#' : Char) ≠ Char.ofNat 0 := by decide
  have hA : ('#' : Char) ≠ 'A' := by decide
  have hC : ('#' : Char) ≠ 'C' := by decide
  have hval := toInt_digits s.tempInput hd
  by_cases hlen : s.tempInput.length < 2 ∨ 3 < s.tempInput.length
  · have hbad : ¬ validEntry s.tempInput := by
      unfold validEntry; omega
    have hstep : processKeypad '#' now s = { s with tempInput := [] } := by
      simp [processKeypad, hin, hlen]
    rw [hstep]
    simp [hbad, hin]
  · by_cases hrange : toInt s.tempInput ≤ 0 ∨ MAX_TEMP < toInt s.tempInput
    · have hbad : ¬ validEntry s.tempInput := by
        unfold validEntry
        rw [hval] at hrange
        simp only [MAX_TEMP] at hrange
        omega
      have hstep : processKeypad '#' now s = { s with tempInput := [] } := by
        simp [processKeypad, hin, hlen, hrange]
      rw [hstep]
      simp [hbad, hin]
    · have hgood : validEntry s.tempInput := by
        unfold validEntry
        rw [hval] at hrange
        simp only [MAX_TEMP] at hrange
        omega
      have hstep : processKeypad '#' now s =
          (let s1 : Controller :=
            { s with targetTemp := toInt s.tempInput, heaterRunning := true, inputting := false }
          if s1.currTemp < (s1.targetTemp : ℚ) - TEMP_TOLERANCE then setState STATE_HEATING now s1
          else if isAtTarget s1 then setState STATE_STABILIZING now s1
          else s1) := by
        simp [processKeypad, hin, hlen, hrange]
      rw [hstep]
      simp only [hgood, iff_true, true_implies, not_true_eq_false, false_implies, and_true]
      split_ifs <;> simp [(setState_frame _ _ _).2.1, (setState_frame _ _ _).2.2.1,
        (setState_frame _ _ _).2.2.2.2.2.1, hval]

/-- C5, at concrete entries: `80` is accepted and becomes the target, while
`5`, `00` and `126` are rejected and leave target, `heaterRunning` and mode
as they were. -/
theorem setpoint_validation_witness :
    ((processKeypad '#' 500 (entering ['8', '0'])).inputting = false ↔
        validEntry (entering ['8', '0']).tempInput) ∧
      (validEntry (entering ['8', '0']).tempInput →
        (processKeypad '#' 500 (entering ['8', '0'])).targetTemp = 80 ∧
          (processKeypad '#' 500 (entering ['8', '0'])).heaterRunning = true) ∧
      ¬ validEntry ['5'] ∧ ¬ validEntry ['0', '0'] ∧ ¬ validEntry ['1', '2', '6'] ∧
      (processKeypad '#' 500 { holdingAt100 with inputting := true, tempInput := ['5'] }).targetTemp
        = 100 := by
  have h := setpoint_validation 500 (entering ['8', '0']) rfl (by decide)
  have h5 := setpoint_validation 500 { holdingAt100 with inputting := true, tempInput := ['5'] }
    rfl (by decide)
  exact ⟨h.1, h.2.1, by decide, by decide, by decide, (h5.2.2 (by decide)).1⟩

/-- C6. Processing the cancel key `C` in any state yields `targetTemp = 0`,
`heaterRunning = false`, the heater pin LOW, the actuator at position 0, the
entry mode closed and the mode `STATE_IDLE`. -/
theorem cancel_key (now : Nat) (s : Controller) :
    (processKeypad 'C' now s).targetTemp = 0 ∧ (processKeypad 'C' now s).heaterRunning = false ∧
      (processKeypad 'C' now s).heaterPin = false ∧ (processKeypad 'C' now s).servoPos = 0 ∧
      (processKeypad 'C' now s).inputting = false ∧
      (processKeypad 'C' now s).currState = STATE_IDLE := by
  have hnul : ('C' : Char) ≠ Char.ofNat 0 := by decide
  have hA : ('C' : Char) ≠ 'A' := by decide
  have hstep : processKeypad 'C' now s = setState STATE_IDLE now
      { s with heaterRunning := false, targetTemp := 0, heaterPin := false, servoPos := 0,
               inputting := false } := by
    simp [processKeypad]
  rw [hstep]
  refine ⟨?_, ?_, ?_, ?_, ?_, setState_currState _ _ _⟩
  · exact (setState_frame _ _ _).2.1
  · exact (setState_frame _ _ _).2.2.1
  · exact (setState_frame _ _ _).2.2.2.1
  · exact (setState_frame _ _ _).2.2.2.2.1
  · exact (setState_frame _ _ _).2.2.2.2.2.1

/-! ## The transition function `updateSystemState` -/

theorem isAtTarget_iff (s : Controller) :
    isAtTarget s = true ↔ |s.currTemp - (s.targetTemp : ℚ)| ≤ 4 := by
  simp only [isAtTarget, TEMP_TOLERANCE, Bool.and_eq_true, decide_eq_true_eq, abs_le]
  constructor
  · rintro ⟨h1, h2⟩; constructor <;> linarith
  · rintro ⟨h1, h2⟩; constructor <;> linarith

theorem setState_isAtTarget (m : TempSystemState) (now : Nat) (s : Controller) :
    isAtTarget (setState m now s) = isAtTarget s := by
  simp only [isAtTarget, (setState_frame m now s).1, (setState_frame m now s).2.1]

/-- Drift-out: with an active target and a reading below `MAX_TEMP` but above
`targetTemp + 4`, `updateSystemState` leaves `STATE_IDLE`. -/
theorem updateSystemState_driftOut (now : Nat) (s : Controller) (hrun : s.heaterRunning = true)
    (htgt : 0 < s.targetTemp) (hr : s.currTemp < 125)
    (hd : (s.targetTemp : ℚ) + 4 < s.currTemp) :
    (updateSystemState now s).currState = STATE_IDLE := by
  have h1 : ¬ (MAX_TEMP : ℚ) ≤ s.currTemp := by simpa [MAX_TEMP] using hr
  have h2 : ¬ (s.heaterRunning = false ∨ s.targetTemp ≤ 0) := by
    simp only [hrun, Bool.true_eq_false, false_or, not_le]; exact htgt
  have hd' : (s.targetTemp : ℚ) + TEMP_TOLERANCE < s.currTemp := by simpa [TEMP_TOLERANCE] using hd
  have hna : ¬ isAtTarget s = true := by
    rw [isAtTarget_iff, abs_le]; intro h; linarith [h.2]
  have hnb : ¬ s.currTemp < (s.targetTemp : ℚ) - TEMP_TOLERANCE := by
    simp only [TEMP_TOLERANCE]; linarith
  simp only [updateSystemState, if_neg h1, if_neg h2, if_pos hd']
  simp only [stateSwitch, setState_currState, (setState_frame _ _ _).1,
    (setState_frame _ _ _).2.1, setState_isAtTarget, if_neg hnb, hna]
  simp [setState_currState]

/-- Without drift-out, with an active target and a reading below `MAX_TEMP`,
`updateSystemState` is the `switch` on the mode at the start of the tick. -/
theorem updateSystemState_inBand (now : Nat) (s : Controller) (hrun : s.heaterRunning = true)
    (htgt : 0 < s.targetTemp) (hr : s.currTemp < 125)
    (hd : ¬ (s.targetTemp : ℚ) + 4 < s.currTemp) :
    updateSystemState now s = stateSwitch (ulongSub now s.stateStartTime) now s := by
  have h1 : ¬ (MAX_TEMP : ℚ) ≤ s.currTemp := by simpa [MAX_TEMP] using hr
  have h2 : ¬ (s.heaterRunning = false ∨ s.targetTemp ≤ 0) := by
    simp only [hrun, Bool.true_eq_false, false_or, not_le]; exact htgt
  have hd' : ¬ (s.targetTemp : ℚ) + TEMP_TOLERANCE < s.currTemp := by
    simpa [TEMP_TOLERANCE] using hd
  simp only [updateSystemState, if_neg h1, if_neg h2, if_neg hd']

/-- The mode the `switch` of `updateSystemState` leaves when the reading is at
most `targetTemp + 4`. -/
theorem stateSwitch_mode (stateTime now : Nat) (s : Controller)
    (hd : ¬ (s.targetTemp : ℚ) + 4 < s.currTemp) :
    (stateSwitch stateTime now s).currState =
      tableReference s.currState s.targetTemp s.currTemp stateTime := by
  simp only [tableReference, if_neg hd]
  have hat := isAtTarget_iff s
  have hlow : s.currTemp < (s.targetTemp : ℚ) - TEMP_TOLERANCE ↔
      s.currTemp < (s.targetTemp : ℚ) - 4 := by simp [TEMP_TOLERANCE]
  have hrec : s.currTemp < ((MAX_TEMP - 5 : Int) : ℚ) ↔ ¬ (120 : ℚ) ≤ s.currTemp := by
    simp only [MAX_TEMP, not_le]; norm_num
  have habs : ¬ s.currTemp < (s.targetTemp : ℚ) - 4 → |s.currTemp - (s.targetTemp : ℚ)| ≤ 4 := by
    intro h; rw [abs_le]; constructor <;> linarith
  cases hm : s.currState <;>
    simp only [stateSwitch, hm, hlow, hrec, hat, STABILIZE_TIME_MS] <;>
    split_ifs <;>
    simp_all [setState_currState]

/-- The fields `updateSystemState` never writes. -/
theorem updateSystemState_frame (now : Nat) (s : Controller) :
    (updateSystemState now s).currTemp = s.currTemp ∧
      (updateSystemState now s).targetTemp = s.targetTemp ∧
      (updateSystemState now s).heaterRunning = s.heaterRunning := by
  have hset : ∀ (m : TempSystemState) (u : Controller),
      (setState m now u).currTemp = u.currTemp ∧ (setState m now u).targetTemp = u.targetTemp ∧
        (setState m now u).heaterRunning = u.heaterRunning :=
    fun m u => ⟨(setState_frame m now u).1, (setState_frame m now u).2.1,
      (setState_frame m now u).2.2.1⟩
  have hsw : ∀ (t : Nat) (u : Controller),
      (stateSwitch t now u).currTemp = u.currTemp ∧
        (stateSwitch t now u).targetTemp = u.targetTemp ∧
        (stateSwitch t now u).heaterRunning = u.heaterRunning := by
    intro t u
    unfold stateSwitch
    split <;> split_ifs <;> first | exact hset _ _ | exact ⟨rfl, rfl, rfl⟩
  unfold updateSystemState
  split_ifs
  · exact hset _ _
  · exact hset _ _
  · obtain ⟨a, b, c⟩ := hsw (ulongSub now s.stateStartTime) (setState STATE_IDLE now s)
    obtain ⟨a', b', c'⟩ := hset STATE_IDLE s
    exact ⟨a.trans a', b.trans b', c.trans c'⟩
  · exact hsw _ _

/-- C7. For an active target (`heaterRunning`, `targetTemp > 0`) and a reading
below 125 the mode after `updateSystemState` is the one the reference table
gives from the mode at the start of the tick, the target, the reading and the
dwell time `millis() - stateStartTime`. -/
theorem transition_table (now : Nat) (s : Controller) (hrun : s.heaterRunning = true)
    (htgt : 0 < s.targetTemp) (hr : s.currTemp < 125) :
    (updateSystemState now s).currState =
      tableReference s.currState s.targetTemp s.currTemp (ulongSub now s.stateStartTime) := by
  by_cases hd : (s.targetTemp : ℚ) + 4 < s.currTemp
  · rw [updateSystemState_driftOut now s hrun htgt hr hd]
    simp only [tableReference, if_pos hd]
  · rw [updateSystemState_inBand now s hrun htgt hr hd]
    exact stateSwitch_mode _ now s hd

/-- C7, at a concrete state: stabilizing at the target of 100 degrees for
5100 ms, the next mode is `STATE_TARGET_REACHED`. -/
theorem transition_table_witness :
    (updateSystemState 7100
        { holdingAt100 with currState := STATE_STABILIZING, stateStartTime := 2000 }).currState
      = STATE_TARGET_REACHED ∧
    tableReference STATE_STABILIZING 100 100 5100 = STATE_TARGET_REACHED :=
  ⟨(transition_table 7100
      { holdingAt100 with currState := STATE_STABILIZING, stateStartTime := 2000 }
      rfl (by decide) (by decide!)).trans (by decide!), by decide!⟩

/-! ## Control ticks -/

/-- The function `controlHeater` writes the two outputs only. -/
theorem controlHeater_frame (s : Controller) :
    (controlHeater s).currState = s.currState ∧ (controlHeater s).currTemp = s.currTemp ∧
      (controlHeater s).targetTemp = s.targetTemp ∧
      (controlHeater s).heaterRunning = s.heaterRunning ∧
      (controlHeater s).stateStartTime = s.stateStartTime := by
  unfold controlHeater
  split_ifs <;> simp

/-- The function `controlHeater` as a write of the two outputs. -/
theorem controlHeater_eq (s : Controller) :
    controlHeater s =
      { s with heaterPin := (controlHeater s).heaterPin, servoPos := (controlHeater s).servoPos } := by
  unfold controlHeater
  split_ifs <;> rfl

theorem setState_outputs (m : TempSystemState) (now : Nat) (s : Controller) (pin : Bool)
    (pos : Int) :
    setState m now { s with heaterPin := pin, servoPos := pos } =
      { setState m now s with heaterPin := pin, servoPos := pos } := by
  simp only [setState]
  split_ifs <;> rfl

theorem stateSwitch_outputs (stateTime now : Nat) (s : Controller) (pin : Bool) (pos : Int) :
    stateSwitch stateTime now { s with heaterPin := pin, servoPos := pos } =
      { stateSwitch stateTime now s with heaterPin := pin, servoPos := pos } := by
  obtain ⟨mode, lastMode, start, checked, shown, temp, target, running, input, entry, _, _⟩ := s
  cases mode <;>
    simp only [stateSwitch, isAtTarget, setState, reduceCtorEq, if_false] <;>
    split_ifs <;> rfl

/-- The function `updateSystemState` neither reads nor writes the outputs. -/
theorem updateSystemState_outputs (now : Nat) (s : Controller) (pin : Bool) (pos : Int) :
    updateSystemState now { s with heaterPin := pin, servoPos := pos } =
      { updateSystemState now s with heaterPin := pin, servoPos := pos } := by
  simp only [updateSystemState]
  split_ifs
  · exact setState_outputs _ _ _ _ _
  · exact setState_outputs _ _ _ _ _
  · rw [setState_outputs]; exact stateSwitch_outputs _ _ _ _ _
  · exact stateSwitch_outputs _ _ _ _ _

/-- The mode at the end of a control tick is the mode `updateSystemState`
leaves on the reading the tick uses. -/
theorem controlTick_currState (reading : ℚ) (now : Nat) (s : Controller)
    (hvalid : reading ≠ DEVICE_DISCONNECTED_C) :
    (controlTick reading now s).currState =
      (updateSystemState now { s with currTemp := reading }).currState := by
  have hread : readTemperature reading s = { s with currTemp := reading } := by
    simp [readTemperature, hvalid]
  rw [controlTick, hread, controlHeater_eq, updateSystemState_outputs]

/-- A control tick keeps the target and `heaterRunning`, and resets the mode
entry time exactly when it changes the mode. -/
theorem controlTick_frame (reading : ℚ) (now : Nat) (s : Controller) :
    (controlTick reading now s).targetTemp = s.targetTemp ∧
      (controlTick reading now s).heaterRunning = s.heaterRunning := by
  obtain ⟨-, ht, hh⟩ := updateSystemState_frame now (controlHeater (readTemperature reading s))
  obtain ⟨-, -, ht', hh', -⟩ := controlHeater_frame (readTemperature reading s)
  have hread : (readTemperature reading s).targetTemp = s.targetTemp ∧
      (readTemperature reading s).heaterRunning = s.heaterRunning := by
    unfold readTemperature; split_ifs <;> exact ⟨rfl, rfl⟩
  exact ⟨ht.trans (ht'.trans hread.1), hh.trans (hh'.trans hread.2)⟩

/-! ## Hysteresis -/

/-- The reference table enters `STATE_HEATING` from another mode only on a
reading below `target - 4`. -/
theorem tableReference_enters_heating (mode : TempSystemState) (target : Int) (reading : ℚ)
    (dwell : Nat) (hm : mode ≠ STATE_HEATING)
    (h : tableReference mode target reading dwell = STATE_HEATING) :
    reading < (target : ℚ) - 4 := by
  by_contra hlow
  by_cases hd : (target : ℚ) + 4 < reading
  · simp [tableReference, hd] at h
  · have habs : |reading - (target : ℚ)| ≤ 4 := by
      rw [abs_le]; constructor <;> linarith
    cases mode <;> simp [tableReference, hd, hlow, habs] at h hm
    all_goals split_ifs at h

/-- With an active target, `updateSystemState` enters `STATE_HEATING` from
another mode only on a reading below `targetTemp - 4`. -/
theorem updateSystemState_enters_heating (now : Nat) (s : Controller)
    (hrun : s.heaterRunning = true) (htgt : 0 < s.targetTemp) (hm : s.currState ≠ STATE_HEATING)
    (h : (updateSystemState now s).currState = STATE_HEATING) :
    s.currTemp < (s.targetTemp : ℚ) - 4 := by
  by_cases hr : s.currTemp < 125
  · by_cases hd : (s.targetTemp : ℚ) + 4 < s.currTemp
    · rw [updateSystemState_driftOut now s hrun htgt hr hd] at h
      exact absurd h (by decide)
    · rw [updateSystemState_inBand now s hrun htgt hr hd, stateSwitch_mode _ now s hd] at h
      exact tableReference_enters_heating _ _ _ _ hm h
  · have hover : (MAX_TEMP : ℚ) ≤ s.currTemp := by
      simp only [MAX_TEMP]; push_cast; linarith
    simp only [updateSystemState, if_pos hover, setState_currState] at h
    exact absurd h (by decide)

/-- A control tick on a reading of at least `targetTemp - 4` does not enter
`STATE_HEATING`. -/
theorem controlTick_stays_out_of_heating (reading : ℚ) (now : Nat) (s : Controller)
    (hrun : s.heaterRunning = true) (htgt : 0 < s.targetTemp) (hm : s.currState ≠ STATE_HEATING)
    (hr : (s.targetTemp : ℚ) - 4 ≤ reading) :
    (controlTick reading now s).currState ≠ STATE_HEATING := by
  have hpos : (0 : ℚ) < (s.targetTemp : ℚ) := by exact_mod_cast htgt
  have hvalid : reading ≠ DEVICE_DISCONNECTED_C := by
    intro heq
    rw [heq, DEVICE_DISCONNECTED_C] at hr
    linarith
  rw [controlTick_currState reading now s hvalid]
  intro h
  have hlow := updateSystemState_enters_heating now { s with currTemp := reading } hrun htgt hm h
  exact absurd hlow (not_lt.mpr hr)

/-- Along control ticks whose readings are all at least `targetTemp - 4`, a
controller that is not in `STATE_HEATING` never gets there. -/
theorem runTicks_never_heating (ticks : List (ℚ × Nat)) (s : Controller)
    (hrun : s.heaterRunning = true) (htgt : 0 < s.targetTemp) (hm : s.currState ≠ STATE_HEATING)
    (hr : ∀ p ∈ ticks, (s.targetTemp : ℚ) - 4 ≤ p.1) :
    (runTicks ticks s).currState ≠ STATE_HEATING := by
  induction ticks generalizing s with
  | nil => exact hm
  | cons p rest ih =>
    obtain ⟨reading, now⟩ := p
    have hhead : (s.targetTemp : ℚ) - 4 ≤ reading := hr (reading, now) (List.mem_cons_self _ _)
    obtain ⟨ht, hh⟩ := controlTick_frame reading now s
    have hstep := controlTick_stays_out_of_heating reading now s hrun htgt hm hhead
    simp only [runTicks]
    apply ih (controlTick reading now s) (hh.trans hrun) (ht ▸ htgt) hstep
    intro q hq
    rw [ht]
    exact hr q (List.mem_cons_of_mem _ hq)

/-- C8. With an active target, a tick whose mode before is not
`STATE_HEATING` leaves `STATE_HEATING` only if its reading is below
`targetTemp - 4`; and starting from `STATE_TARGET_REACHED`, along every
sequence of control ticks whose readings are all at least `targetTemp - 4`,
the mode is `STATE_HEATING` after none of the ticks. -/
theorem hysteresis (s : Controller) (hrun : s.heaterRunning = true) (htgt : 0 < s.targetTemp) :
    (∀ now : Nat, s.currState ≠ STATE_HEATING →
        (updateSystemState now s).currState = STATE_HEATING →
        s.currTemp < (s.targetTemp : ℚ) - 4) ∧
      (s.currState = STATE_TARGET_REACHED →
        ∀ ticks : List (ℚ × Nat), (∀ p ∈ ticks, (s.targetTemp : ℚ) - 4 ≤ p.1) →
          ∀ k : Nat, (runTicks (ticks.take k) s).currState ≠ STATE_HEATING) := by
  constructor
  · intro now hm h
    exact updateSystemState_enters_heating now s hrun htgt hm h
  · intro hm ticks hr k
    have hne : s.currState ≠ STATE_HEATING := by rw [hm]; decide
    apply runTicks_never_heating (ticks.take k) s hrun htgt hne
    intro p hp
    exact hr p (List.mem_of_mem_take hp)

/-- C8, at a concrete state: holding 100 degrees, the readings 100, 97, 96,
104 and 99 leave the mode out of `STATE_HEATING`, and the tick on 96 alone
does too. -/
theorem hysteresis_witness :
    (runTicks [(100, 1000), (97, 2000), (96, 3000), (104, 4000), (99, 5000)]
        holdingAt100).currState ≠ STATE_HEATING ∧
      (updateSystemState 1000 { holdingAt100 with currTemp := 96 }).currState
        ≠ STATE_HEATING := by
  have h := hysteresis holdingAt100 rfl (by decide)
  refine ⟨h.2 rfl [(100, 1000), (97, 2000), (96, 3000), (104, 4000), (99, 5000)] ?_ 5, ?_⟩
  · decide!
  · decide!

/-! ## Recovery from `STATE_OVERHEAT` -/

/-- C9 as stated fails: without a target, a controller in `STATE_OVERHEAT`
whose reading is 121 degrees (at least 120) leaves `STATE_OVERHEAT` for
`STATE_IDLE`. -/
theorem overheat_recovery_counterexample :
    idleOverheated.currState = STATE_OVERHEAT ∧ (120 : ℚ) ≤ idleOverheated.currTemp ∧
      (updateSystemState 3000 idleOverheated).currState ≠ STATE_OVERHEAT := by
  decide!

/-- C9, amended.  From `STATE_OVERHEAT` with a reading of at least 120: the
mode after `updateSystemState` is still `STATE_OVERHEAT` when the reading is
at least 125, and when there is an active target and the reading is at most
`targetTemp + 4`; without an active target and with a reading below 125 the
mode becomes `STATE_IDLE`. -/
theorem overheat_recovery_threshold (now : Nat) (s : Controller)
    (hm : s.currState = STATE_OVERHEAT) (hr : (120 : ℚ) ≤ s.currTemp) :
    ((125 ≤ s.currTemp ∨
          (s.heaterRunning = true ∧ 0 < s.targetTemp ∧ s.currTemp ≤ (s.targetTemp : ℚ) + 4)) →
        (updateSystemState now s).currState = STATE_OVERHEAT) ∧
      (s.currTemp < 125 → (s.heaterRunning = false ∨ s.targetTemp ≤ 0) →
        (updateSystemState now s).currState = STATE_IDLE) := by
  constructor
  · intro h
    by_cases hover : (125 : ℚ) ≤ s.currTemp
    · have hover' : (MAX_TEMP : ℚ) ≤ s.currTemp := by simpa [MAX_TEMP] using hover
      simp only [updateSystemState, if_pos hover', setState_currState]
    · rcases h with h | ⟨hrun, htgt, hband⟩
      · exact absurd h hover
      · have hlt : s.currTemp < 125 := not_le.mp hover
        have hd : ¬ (s.targetTemp : ℚ) + 4 < s.currTemp := not_lt.mpr hband
        rw [updateSystemState_inBand now s hrun htgt hlt hd, stateSwitch_mode _ now s hd, hm]
        simp only [tableReference, if_neg hd, if_pos hr]
  · intro hlt hoff
    have hover' : ¬ (MAX_TEMP : ℚ) ≤ s.currTemp := by simpa [MAX_TEMP] using hlt
    simp only [updateSystemState, if_neg hover', if_pos hoff, setState_currState]

/-- C9 amended, at concrete states: overheated with target 120 and a reading
of 121 the mode stays `STATE_OVERHEAT`; overheated without target and a
reading of 121 the mode becomes `STATE_IDLE`. -/
theorem overheat_recovery_threshold_witness :
    (updateSystemState 3000
        { overheatedAt126 with targetTemp := 120, currTemp := 121 }).currState = STATE_OVERHEAT ∧
      (updateSystemState 3000
        { overheatedAt126 with targetTemp := 0, heaterRunning := false,
                               currTemp := 121 }).currState = STATE_IDLE :=
  ⟨(overheat_recovery_threshold 3000 { overheatedAt126 with targetTemp := 120, currTemp := 121 }
      rfl (by decide!)).1 (Or.inr (by decide!)),
    (overheat_recovery_threshold 3000
      { overheatedAt126 with targetTemp := 0, heaterRunning := false, currTemp := 121 }
      rfl (by decide!)).2 (by decide!) (Or.inl rfl)⟩

/-! ## The scenario of the specification -/

/-- The `switch` of `updateSystemState` resets the mode entry time exactly
when it changes the mode. -/
theorem stateSwitch_stateStartTime (stateTime now : Nat) (s : Controller) :
    (stateSwitch stateTime now s).stateStartTime =
      if (stateSwitch stateTime now s).currState = s.currState then s.stateStartTime
      else now := by
  obtain ⟨mode, lastMode, start, checked, shown, temp, target, running, input, entry, _, _⟩ := s
  cases mode <;>
    simp only [stateSwitch, setState, reduceCtorEq, if_false] <;>
    split_ifs <;> simp_all

/-- A control tick on a valid reading below `MAX_TEMP` and at most
`targetTemp + 4`, with an active target: the mode is the one of the table and
the mode entry time is reset exactly when the mode changes. -/
theorem controlTick_inBand (reading : ℚ) (now : Nat) (s : Controller)
    (hvalid : reading ≠ DEVICE_DISCONNECTED_C) (hrun : s.heaterRunning = true)
    (htgt : 0 < s.targetTemp) (hr : reading < 125) (hd : ¬ (s.targetTemp : ℚ) + 4 < reading) :
    (controlTick reading now s).currState =
        tableReference s.currState s.targetTemp reading (ulongSub now s.stateStartTime) ∧
      (controlTick reading now s).stateStartTime =
        if tableReference s.currState s.targetTemp reading (ulongSub now s.stateStartTime)
            = s.currState then s.stateStartTime
        else now := by
  have hread : readTemperature reading s = { s with currTemp := reading } := by
    simp [readTemperature, hvalid]
  have hmode := stateSwitch_mode (ulongSub now s.stateStartTime) now
    { s with currTemp := reading } hd
  have hstart := stateSwitch_stateStartTime (ulongSub now s.stateStartTime) now
    { s with currTemp := reading }
  have hupd := updateSystemState_inBand now { s with currTemp := reading } hrun htgt hr hd
  rw [controlTick, hread, controlHeater_eq, updateSystemState_outputs, hupd]
  rw [hmode] at hstart
  exact ⟨hmode, hstart⟩

/-- C10 as stated fails: on the readings 80, 98, 100, 100, 100, 96 with
target 100 the modes are not Heating, Stabilizing, Stabilizing, Stabilizing,
TargetReached, Heating: the sixth reading, 96, is not below `100 - 4`, and
the mode stays `STATE_TARGET_REACHED`. -/
theorem scenario_trace_counterexample :
    modeTrace scenarioTicks idleTarget100 ≠
      [STATE_HEATING, STATE_STABILIZING, STATE_STABILIZING, STATE_STABILIZING,
        STATE_TARGET_REACHED, STATE_HEATING] := by
  decide!

/-- C10, amended.  Starting in `STATE_IDLE` with active target 100, the
control ticks on the readings 80, 98, 100, 100, 100, 96, taken 1 s apart
except the fifth, taken `d ≥ 5100` ms after `STATE_STABILIZING` was entered,
end in the modes Heating, Stabilizing, Stabilizing, Stabilizing,
TargetReached, TargetReached. -/
theorem scenario_trace (s : Controller) (hm : s.currState = STATE_IDLE)
    (ht : s.targetTemp = 100) (hrun : s.heaterRunning = true) (t d : Nat) (hd : 5100 ≤ d)
    (hwrap : d < ULONG_MOD) :
    modeTrace
        [(80, millis (t + 1000)), (98, millis (t + 2000)), (100, millis (t + 3000)),
          (100, millis (t + 4000)), (100, millis (t + 2000 + d)),
          (96, millis (t + 3000 + d))] s =
      [STATE_HEATING, STATE_STABILIZING, STATE_STABILIZING, STATE_STABILIZING,
        STATE_TARGET_REACHED, STATE_TARGET_REACHED] := by
  have hT1 : ∀ x, tableReference STATE_IDLE 100 80 x = STATE_HEATING := by
    intro x; norm_num [tableReference]
  have hT2 : ∀ x, tableReference STATE_HEATING 100 98 x = STATE_STABILIZING := by
    intro x; norm_num [tableReference, abs_le]
  have hT3 : ∀ x, x < 5000 → tableReference STATE_STABILIZING 100 100 x = STATE_STABILIZING := by
    intro x hx; norm_num [tableReference, not_le.mpr hx]
  have hT5 : ∀ x, 5000 ≤ x →
      tableReference STATE_STABILIZING 100 100 x = STATE_TARGET_REACHED := by
    intro x hx; norm_num [tableReference, hx]
  have hT6 : ∀ x, tableReference STATE_TARGET_REACHED 100 96 x = STATE_TARGET_REACHED := by
    intro x; norm_num [tableReference]
  have hv : ∀ r : ℚ, 0 ≤ r → r ≠ DEVICE_DISCONNECTED_C := by
    intro r hr heq; rw [heq, DEVICE_DISCONNECTED_C] at hr; linarith
  simp only [modeTrace]
  -- tick 1: Idle, 80 < 100 - 4
  obtain ⟨ht1, hr1⟩ := controlTick_frame 80 (millis (t + 1000)) s
  obtain ⟨hm1, -⟩ := controlTick_inBand 80 (millis (t + 1000)) s (hv _ (by norm_num)) hrun
    (by omega) (by norm_num) (by rw [ht]; norm_num)
  rw [hm, ht, hT1] at hm1
  rw [ht] at ht1
  rw [hrun] at hr1
  generalize controlTick 80 (millis (t + 1000)) s = s1 at *
  -- tick 2: Heating, 98 is at target
  obtain ⟨ht2, hr2⟩ := controlTick_frame 98 (millis (t + 2000)) s1
  obtain ⟨hm2, hs2⟩ := controlTick_inBand 98 (millis (t + 2000)) s1 (hv _ (by norm_num)) hr1
    (by omega) (by norm_num) (by rw [ht1]; norm_num)
  rw [hm1, ht1, hT2] at hm2 hs2
  rw [if_neg (by decide)] at hs2
  rw [ht1] at ht2
  rw [hr1] at hr2
  generalize controlTick 98 (millis (t + 2000)) s1 = s2 at *
  -- tick 3: Stabilizing for 1000 ms
  have hdw3 : ulongSub (millis (t + 3000)) s2.stateStartTime = 1000 := by
    rw [hs2]; simp only [ulongSub, millis, ULONG_MOD]; omega
  obtain ⟨ht3, hr3⟩ := controlTick_frame 100 (millis (t + 3000)) s2
  obtain ⟨hm3, hs3⟩ := controlTick_inBand 100 (millis (t + 3000)) s2 (hv _ (by norm_num)) hr2
    (by omega) (by norm_num) (by rw [ht2]; norm_num)
  rw [hm2, ht2, hdw3, hT3 1000 (by norm_num)] at hm3 hs3
  rw [if_pos rfl, hs2] at hs3
  rw [ht2] at ht3
  rw [hr2] at hr3
  generalize controlTick 100 (millis (t + 3000)) s2 = s3 at *
  -- tick 4: Stabilizing for 2000 ms
  have hdw4 : ulongSub (millis (t + 4000)) s3.stateStartTime = 2000 := by
    rw [hs3]; simp only [ulongSub, millis, ULONG_MOD]; omega
  obtain ⟨ht4, hr4⟩ := controlTick_frame 100 (millis (t + 4000)) s3
  obtain ⟨hm4, hs4⟩ := controlTick_inBand 100 (millis (t + 4000)) s3 (hv _ (by norm_num)) hr3
    (by omega) (by norm_num) (by rw [ht3]; norm_num)
  rw [hm3, ht3, hdw4, hT3 2000 (by norm_num)] at hm4 hs4
  rw [if_pos rfl, hs3] at hs4
  rw [ht3] at ht4
  rw [hr3] at hr4
  generalize controlTick 100 (millis (t + 4000)) s3 = s4 at *
  -- tick 5: Stabilizing for d ≥ 5100 ms, at target
  have hdw5 : ulongSub (millis (t + 2000 + d)) s4.stateStartTime = d := by
    rw [hs4]; simp only [ulongSub, millis, ULONG_MOD] at hwrap ⊢; omega
  obtain ⟨ht5, hr5⟩ := controlTick_frame 100 (millis (t + 2000 + d)) s4
  obtain ⟨hm5, -⟩ := controlTick_inBand 100 (millis (t + 2000 + d)) s4 (hv _ (by norm_num)) hr4
    (by omega) (by norm_num) (by rw [ht4]; norm_num)
  rw [hm4, ht4, hdw5, hT5 d (by omega)] at hm5
  rw [ht4] at ht5
  rw [hr4] at hr5
  generalize controlTick 100 (millis (t + 2000 + d)) s4 = s5 at *
  -- tick 6: TargetReached, 96 is not below 100 - 4
  obtain ⟨hm6, -⟩ := controlTick_inBand 96 (millis (t + 3000 + d)) s5 (hv _ (by norm_num)) hr5
    (by omega) (by norm_num) (by rw [ht5]; norm_num)
  rw [hm5, ht5, hT6] at hm6
  rw [hm1, hm2, hm3, hm4, hm5, hm6]

/-- C10 amended, at the concrete clock values of `scenarioTicks`. -/
theorem scenario_trace_witness :
    modeTrace scenarioTicks idleTarget100 =
      [STATE_HEATING, STATE_STABILIZING, STATE_STABILIZING, STATE_STABILIZING,
        STATE_TARGET_REACHED, STATE_TARGET_REACHED] :=
  scenario_trace idleTarget100 rfl rfl rfl 0 5100 (by decide) (by decide)

/-! ## The overheat scenario of the specification -/

/-- A control tick on a reading of at least `MAX_TEMP` ends in
`STATE_OVERHEAT`. -/
theorem controlTick_overheat (reading : ℚ) (now : Nat) (s : Controller)
    (hr : (125 : ℚ) ≤ reading) :
    (controlTick reading now s).currState = STATE_OVERHEAT := by
  have hvalid : reading ≠ DEVICE_DISCONNECTED_C := by
    intro heq; rw [heq, DEVICE_DISCONNECTED_C] at hr; linarith
  have hover : (MAX_TEMP : ℚ) ≤ reading := by simpa [MAX_TEMP] using hr
  rw [controlTick_currState reading now s hvalid]
  simp only [updateSystemState, if_pos hover, setState_currState]

/-- A control tick with an active target on a valid reading below `MAX_TEMP`
and above `targetTemp + 4` ends in `STATE_IDLE`. -/
theorem controlTick_driftOut (reading : ℚ) (now : Nat) (s : Controller)
    (hvalid : reading ≠ DEVICE_DISCONNECTED_C) (hrun : s.heaterRunning = true)
    (htgt : 0 < s.targetTemp) (hr : reading < 125) (hd : (s.targetTemp : ℚ) + 4 < reading) :
    (controlTick reading now s).currState = STATE_IDLE := by
  rw [controlTick_currState reading now s hvalid]
  exact updateSystemState_driftOut now { s with currTemp := reading } hrun htgt hr hd

/-- C11 as stated fails: with target 100, after the ticks on 90 and 126 the
mode is `STATE_OVERHEAT`, and the following tick on 115 does not move it to
`STATE_HEATING`. -/
theorem overheat_scenario_counterexample :
    (runTicks [(90, 1000), (126, 2000)] heatingAt90).currState = STATE_OVERHEAT ∧
      (runTicks [(90, 1000), (126, 2000), (115, 3000)] heatingAt90).currState
        ≠ STATE_HEATING := by
  decide!

/-- C11, amended.  With active target 100, a tick with reading 126 after a
tick with reading 90 leaves the mode `STATE_OVERHEAT`, and the following tick
with reading 115 moves the mode from `STATE_OVERHEAT` to `STATE_IDLE`. -/
theorem overheat_scenario (s : Controller) (ht : s.targetTemp = 100)
    (hrun : s.heaterRunning = true) (t0 t1 t2 : Nat) :
    (runTicks [(90, t0), (126, t1)] s).currState = STATE_OVERHEAT ∧
      (runTicks [(90, t0), (126, t1), (115, t2)] s).currState = STATE_IDLE := by
  simp only [runTicks]
  obtain ⟨ht1, hr1⟩ := controlTick_frame 90 t0 s
  obtain ⟨ht2, hr2⟩ := controlTick_frame 126 t1 (controlTick 90 t0 s)
  rw [ht1, ht] at ht2
  rw [hr1, hrun] at hr2
  refine ⟨controlTick_overheat 126 t1 _ (by norm_num), ?_⟩
  apply controlTick_driftOut 115 t2 _ _ hr2 (by rw [ht2]; decide) (by norm_num)
  · rw [ht2]; norm_num
  · rw [DEVICE_DISCONNECTED_C]; norm_num

/-- C11 amended, at a concrete state: heating towards 100 degrees. -/
theorem overheat_scenario_witness :
    (runTicks [(90, 1000), (126, 2000)] heatingAt90).currState = STATE_OVERHEAT ∧
      (runTicks [(90, 1000), (126, 2000), (115, 3000)] heatingAt90).currState = STATE_IDLE :=
  overheat_scenario heatingAt90 rfl rfl 1000 2000 3000

/-! ## Idempotence of the transition function -/

theorem ulongSub_self (now : Nat) : ulongSub now now = 0 := by
  simp only [ulongSub, ULONG_MOD]; omega

theorem setState_idem (m : TempSystemState) (now : Nat) (s : Controller) :
    setState m now (setState m now s) = setState m now s := by
  have h := setState_currState m now s
  conv_lhs => rw [setState, if_pos h.symm]

/-- In `STATE_IDLE`, on a reading that is neither below the band nor inside
it, the `switch` of `updateSystemState` does nothing. -/
theorem stateSwitch_idle_above (stateTime now : Nat) (s : Controller)
    (hm : s.currState = STATE_IDLE) (hd : (s.targetTemp : ℚ) + TEMP_TOLERANCE < s.currTemp) :
    stateSwitch stateTime now s = s := by
  have hlow : ¬ s.currTemp < (s.targetTemp : ℚ) - TEMP_TOLERANCE := by
    simp only [TEMP_TOLERANCE] at hd ⊢; linarith
  have hat : ¬ isAtTarget s = true := by
    rw [isAtTarget_iff, abs_le]; simp only [TEMP_TOLERANCE] at hd; intro h; linarith [h.2]
  simp only [stateSwitch, hm, if_neg hlow, hat, Bool.false_eq_true, if_false]

/-- The fields the `switch` of `updateSystemState` never writes. -/
theorem stateSwitch_frame (stateTime now : Nat) (s : Controller) :
    (stateSwitch stateTime now s).currTemp = s.currTemp ∧
      (stateSwitch stateTime now s).targetTemp = s.targetTemp ∧
      (stateSwitch stateTime now s).heaterRunning = s.heaterRunning := by
  have hset : ∀ (m : TempSystemState),
      (setState m now s).currTemp = s.currTemp ∧ (setState m now s).targetTemp = s.targetTemp ∧
        (setState m now s).heaterRunning = s.heaterRunning :=
    fun m => ⟨(setState_frame m now s).1, (setState_frame m now s).2.1,
      (setState_frame m now s).2.2.1⟩
  unfold stateSwitch
  split <;> split_ifs <;> first | exact hset _ | exact ⟨rfl, rfl, rfl⟩

/-- What the `switch` of `updateSystemState` does: nothing, or one call of
`setState`, made under the condition recorded with it. -/
theorem stateSwitch_cases (stateTime now : Nat) (s : Controller) :
    stateSwitch stateTime now s = s ∨
      (stateSwitch stateTime now s = setState STATE_HEATING now s ∧ ¬ isAtTarget s = true) ∨
      (stateSwitch stateTime now s = setState STATE_STABILIZING now s ∧
        ¬ s.currTemp < (s.targetTemp : ℚ) - TEMP_TOLERANCE) ∨
      (stateSwitch stateTime now s = setState STATE_TARGET_REACHED now s ∧
        ¬ s.currTemp < (s.targetTemp : ℚ) - TEMP_TOLERANCE) ∨
      (stateSwitch stateTime now s = setState STATE_IDLE now s ∧ ¬ isAtTarget s = true ∧
        ¬ s.currTemp < (s.targetTemp : ℚ) - TEMP_TOLERANCE) := by
  have hlow : s.currTemp < (s.targetTemp : ℚ) - TEMP_TOLERANCE → ¬ isAtTarget s = true := by
    intro h hat
    rw [isAtTarget_iff, abs_le] at hat
    simp only [TEMP_TOLERANCE] at h
    linarith [hat.1]
  have hat : isAtTarget s = true → ¬ s.currTemp < (s.targetTemp : ℚ) - TEMP_TOLERANCE :=
    fun h h' => hlow h' h
  cases hm : s.currState <;> simp only [stateSwitch, hm] <;> split_ifs <;>
    first
    | exact Or.inl rfl
    | exact Or.inr (Or.inl ⟨rfl, hlow ‹_›⟩)
    | exact Or.inr (Or.inr (Or.inl ⟨rfl, hat ‹_›⟩))
    | exact Or.inr (Or.inr (Or.inr (Or.inl ⟨rfl, hat ‹_›⟩)))
    | exact Or.inr (Or.inr (Or.inr (Or.inl ⟨rfl, hat (And.right ‹_›)⟩)))
    | exact Or.inr (Or.inr (Or.inr (Or.inr ⟨rfl, ‹_›, ‹_›⟩)))

theorem setState_of_eq (m : TempSystemState) (now : Nat) (s : Controller)
    (h : m = s.currState) : setState m now s = s := by
  simp only [setState, if_pos h]

theorem setState_of_ne (m : TempSystemState) (now : Nat) (s : Controller)
    (h : m ≠ s.currState) :
    (setState m now s).stateStartTime = now ∧ (setState m now s).lastState = s.currState := by
  simp only [setState, if_neg h, and_self]

/-- The states the `switch` of `updateSystemState` leaves alone: a mode with
none of its exit conditions met. -/
theorem stateSwitch_fixed (stateTime now : Nat) (u : Controller)
    (h : (u.currState = STATE_HEATING ∧ ¬ isAtTarget u = true) ∨
      (u.currState = STATE_STABILIZING ∧ stateTime < STABILIZE_TIME_MS ∧
        ¬ u.currTemp < (u.targetTemp : ℚ) - TEMP_TOLERANCE) ∨
      (u.currState = STATE_TARGET_REACHED ∧
        ¬ u.currTemp < (u.targetTemp : ℚ) - TEMP_TOLERANCE) ∨
      (u.currState = STATE_IDLE ∧ ¬ isAtTarget u = true ∧
        ¬ u.currTemp < (u.targetTemp : ℚ) - TEMP_TOLERANCE)) :
    stateSwitch stateTime now u = u := by
  rcases h with ⟨hm, hat⟩ | ⟨hm, ht, hlow⟩ | ⟨hm, hlow⟩ | ⟨hm, hat, hlow⟩
  · simp only [stateSwitch, hm, hat, Bool.false_eq_true, if_false]
  · have ht' : ¬ STABILIZE_TIME_MS ≤ stateTime := not_le.mpr ht
    simp only [stateSwitch, hm, ht', false_and, if_false, if_neg hlow]
  · simp only [stateSwitch, hm, if_neg hlow]
  · simp only [stateSwitch, hm, if_neg hlow, hat, Bool.false_eq_true, if_false]

/-- After a call of `setState` that changed the mode, made by the `switch` of
`updateSystemState` under its condition, the `switch` run again at the same
clock value does nothing. -/
theorem stateSwitch_after_setState (now : Nat) (s : Controller) (m : TempSystemState)
    (hne : m ≠ s.currState)
    (h : (m = STATE_HEATING ∧ ¬ isAtTarget s = true) ∨
      (m = STATE_STABILIZING ∧ ¬ s.currTemp < (s.targetTemp : ℚ) - TEMP_TOLERANCE) ∨
      (m = STATE_TARGET_REACHED ∧ ¬ s.currTemp < (s.targetTemp : ℚ) - TEMP_TOLERANCE) ∨
      (m = STATE_IDLE ∧ ¬ isAtTarget s = true ∧
        ¬ s.currTemp < (s.targetTemp : ℚ) - TEMP_TOLERANCE)) :
    stateSwitch (ulongSub now (setState m now s).stateStartTime) now (setState m now s) =
      setState m now s := by
  have hmode := setState_currState m now s
  have hat := setState_isAtTarget m now s
  have htemp := (setState_frame m now s).1
  have htgt := (setState_frame m now s).2.1
  have hstart := (setState_of_ne m now s hne).1
  apply stateSwitch_fixed
  rw [hmode, hat, htemp, htgt, hstart, ulongSub_self]
  rcases h with ⟨hm, c⟩ | ⟨hm, c⟩ | ⟨hm, c⟩ | ⟨hm, c⟩
  · exact Or.inl ⟨hm, c⟩
  · exact Or.inr (Or.inl ⟨hm, by decide, c⟩)
  · exact Or.inr (Or.inr (Or.inl ⟨hm, c⟩))
  · exact Or.inr (Or.inr (Or.inr ⟨hm, c⟩))

/-- Running the `switch` of `updateSystemState` again, at the same clock value,
on the state it left changes nothing. -/
theorem stateSwitch_idem (now : Nat) (s : Controller) :
    stateSwitch (ulongSub now (stateSwitch (ulongSub now s.stateStartTime) now s).stateStartTime)
        now (stateSwitch (ulongSub now s.stateStartTime) now s) =
      stateSwitch (ulongSub now s.stateStartTime) now s := by
  have key : ∀ m : TempSystemState,
      stateSwitch (ulongSub now s.stateStartTime) now s = setState m now s →
      ((m = STATE_HEATING ∧ ¬ isAtTarget s = true) ∨
        (m = STATE_STABILIZING ∧ ¬ s.currTemp < (s.targetTemp : ℚ) - TEMP_TOLERANCE) ∨
        (m = STATE_TARGET_REACHED ∧ ¬ s.currTemp < (s.targetTemp : ℚ) - TEMP_TOLERANCE) ∨
        (m = STATE_IDLE ∧ ¬ isAtTarget s = true ∧
          ¬ s.currTemp < (s.targetTemp : ℚ) - TEMP_TOLERANCE)) →
      stateSwitch
          (ulongSub now (stateSwitch (ulongSub now s.stateStartTime) now s).stateStartTime)
          now (stateSwitch (ulongSub now s.stateStartTime) now s) =
        stateSwitch (ulongSub now s.stateStartTime) now s := by
    intro m hstep hcond
    by_cases hm : m = s.currState
    · have hsame : stateSwitch (ulongSub now s.stateStartTime) now s = s := by
        rw [hstep, setState_of_eq m now s hm]
      rw [hsame]; exact hsame
    · rw [hstep]
      exact stateSwitch_after_setState now s m hm hcond
  rcases stateSwitch_cases (ulongSub now s.stateStartTime) now s with
    h | ⟨h, c⟩ | ⟨h, c⟩ | ⟨h, c⟩ | ⟨h, c⟩
  · rw [h]; exact h
  · exact key _ h (Or.inl ⟨rfl, c⟩)
  · exact key _ h (Or.inr (Or.inl ⟨rfl, c⟩))
  · exact key _ h (Or.inr (Or.inr (Or.inl ⟨rfl, c⟩)))
  · exact key _ h (Or.inr (Or.inr (Or.inr ⟨rfl, c⟩)))

/-- C12. Running `updateSystemState` a second time at the same clock value, on
the same reading and target, changes nothing: the mode, the mode entry time
and every other variable are as the first run left them. -/
theorem updateSystemState_idempotent (now : Nat) (s : Controller) :
    updateSystemState now (updateSystemState now s) = updateSystemState now s ∧
      (updateSystemState now (updateSystemState now s)).currState =
        (updateSystemState now s).currState ∧
      (updateSystemState now (updateSystemState now s)).stateStartTime =
        (updateSystemState now s).stateStartTime := by
  have hfull : updateSystemState now (updateSystemState now s) = updateSystemState now s := by
    obtain ⟨htemp, htgt, hrun⟩ := updateSystemState_frame now s
    by_cases h1 : (MAX_TEMP : ℚ) ≤ s.currTemp
    · have hfirst : updateSystemState now s = setState STATE_OVERHEAT now s := by
        simp only [updateSystemState, if_pos h1]
      have h1' : (MAX_TEMP : ℚ) ≤ (updateSystemState now s).currTemp := by rw [htemp]; exact h1
      conv_lhs => rw [updateSystemState, if_pos h1']
      rw [hfirst]; exact setState_idem _ _ _
    · by_cases h2 : s.heaterRunning = false ∨ s.targetTemp ≤ 0
      · have hfirst : updateSystemState now s = setState STATE_IDLE now s := by
          simp only [updateSystemState, if_neg h1, if_pos h2]
        have h1' : ¬ (MAX_TEMP : ℚ) ≤ (updateSystemState now s).currTemp := by
          rw [htemp]; exact h1
        have h2' : (updateSystemState now s).heaterRunning = false ∨
            (updateSystemState now s).targetTemp ≤ 0 := by rw [hrun, htgt]; exact h2
        conv_lhs => rw [updateSystemState, if_neg h1', if_pos h2']
        rw [hfirst]; exact setState_idem _ _ _
      · have h1' : ¬ (MAX_TEMP : ℚ) ≤ (updateSystemState now s).currTemp := by
          rw [htemp]; exact h1
        have h2' : ¬ ((updateSystemState now s).heaterRunning = false ∨
            (updateSystemState now s).targetTemp ≤ 0) := by rw [hrun, htgt]; exact h2
        by_cases h3 : (s.targetTemp : ℚ) + TEMP_TOLERANCE < s.currTemp
        · have hidle : stateSwitch (ulongSub now s.stateStartTime) now (setState STATE_IDLE now s)
              = setState STATE_IDLE now s :=
            stateSwitch_idle_above _ now _ (setState_currState _ _ _)
              (by rw [(setState_frame _ _ _).1, (setState_frame _ _ _).2.1]; exact h3)
          have hfirst : updateSystemState now s = setState STATE_IDLE now s := by
            simp only [updateSystemState, if_neg h1, if_neg h2, if_pos h3]
            exact hidle
          have h3' : ((updateSystemState now s).targetTemp : ℚ) + TEMP_TOLERANCE
              < (updateSystemState now s).currTemp := by rw [htemp, htgt]; exact h3
          conv_lhs => rw [updateSystemState, if_neg h1', if_neg h2']
          simp only [if_pos h3']
          rw [hfirst, setState_idem]
          exact stateSwitch_idle_above _ now _ (setState_currState _ _ _)
            (by rw [(setState_frame _ _ _).1, (setState_frame _ _ _).2.1]; exact h3)
        · have hfirst : updateSystemState now s =
              stateSwitch (ulongSub now s.stateStartTime) now s := by
            simp only [updateSystemState, if_neg h1, if_neg h2, if_neg h3]
          have h3' : ¬ ((updateSystemState now s).targetTemp : ℚ) + TEMP_TOLERANCE
              < (updateSystemState now s).currTemp := by rw [htemp, htgt]; exact h3
          conv_lhs => rw [updateSystemState, if_neg h1', if_neg h2']
          simp only [if_neg h3']
          rw [hfirst]
          exact stateSwitch_idem now s
  exact ⟨hfull, by rw [hfull], by rw [hfull]⟩

/-! ## The mode entry time written by `setState` -/

/-- C13 as stated fails: a call of `setState` with a new mode at a clock value
equal to the stored mode entry time changes the mode and leaves the value of
`stateStartTime` as it was, so the time does not change exactly when the mode
does. -/
theorem setState_timestamp_counterexample :
    ¬ ((setState STATE_IDLE 500 { heatingAt90 with stateStartTime := 500 }).stateStartTime
          ≠ ({ heatingAt90 with stateStartTime := 500 } : Controller).stateStartTime ↔
        (setState STATE_IDLE 500 { heatingAt90 with stateStartTime := 500 }).currState
          ≠ ({ heatingAt90 with stateStartTime := 500 } : Controller).currState) := by
  decide!

/-- C13, amended.  Across a call `setState(m)`: the mode entry time changes
only if the mode changes, and exactly when the mode changes provided the
clock value differs from the stored entry time; a call with `m` equal to the
current mode leaves every variable unchanged; a call with a different `m`
sets the mode to `m`, `stateStartTime` to the clock value and `lastState` to
the old mode. -/
theorem setState_timestamp (m : TempSystemState) (now : Nat) (s : Controller) :
    ((setState m now s).stateStartTime ≠ s.stateStartTime →
        (setState m now s).currState ≠ s.currState) ∧
      (now ≠ s.stateStartTime →
        ((setState m now s).stateStartTime ≠ s.stateStartTime ↔
          (setState m now s).currState ≠ s.currState)) ∧
      (m = s.currState → setState m now s = s) ∧
      (m ≠ s.currState →
        (setState m now s).currState = m ∧ (setState m now s).stateStartTime = now ∧
          (setState m now s).lastState = s.currState) := by
  by_cases hm : m = s.currState
  · have hsame := setState_of_eq m now s hm
    rw [hsame]
    exact ⟨fun h => absurd rfl h, fun _ => ⟨fun h => absurd rfl h, fun h => absurd rfl h⟩,
      fun _ => rfl, fun h => absurd hm h⟩
  · obtain ⟨hstart, hlast⟩ := setState_of_ne m now s hm
    have hmode := setState_currState m now s
    rw [hstart, hmode]
    refine ⟨fun _ => hm, fun hclock => ⟨fun _ => hm, fun _ => hclock⟩, fun h => absurd h hm,
      fun _ => ⟨rfl, rfl, ?_⟩⟩
    exact hlast

/-- C13 amended, at a concrete call: leaving `STATE_HEATING`, entered at
clock value 0, for `STATE_IDLE` at clock value 2500. -/
theorem setState_timestamp_witness :
    (setState STATE_IDLE 2500 heatingAt90).currState = STATE_IDLE ∧
      (setState STATE_IDLE 2500 heatingAt90).stateStartTime = 2500 ∧
      (setState STATE_IDLE 2500 heatingAt90).lastState = STATE_HEATING ∧
      setState STATE_HEATING 2500 heatingAt90 = heatingAt90 :=
  ⟨((setState_timestamp STATE_IDLE 2500 heatingAt90).2.2.2 (by decide)).1,
    ((setState_timestamp STATE_IDLE 2500 heatingAt90).2.2.2 (by decide)).2.1,
    ((setState_timestamp STATE_IDLE 2500 heatingAt90).2.2.2 (by decide)).2.2,
    (setState_timestamp STATE_HEATING 2500 heatingAt90).2.2.1 rfl⟩

/-! ## The actuation policy of `controlHeater` -/

/-- C14. With an active target (`heaterRunning`, `targetTemp > 0`),
`controlHeater` commands: in `STATE_HEATING` heater on and position = target;
in `STATE_STABILIZING` heater on and position = target when the reading is
below the target, heater off when it is at or above the target; in
`STATE_TARGET_REACHED` heater on when the reading is below `target - 0.5`,
heater off when it is at or above the target, position = target in both
cases; in `STATE_IDLE` heater off and position 0. -/
theorem actuation_policy (s : Controller) (hrun : s.heaterRunning = true)
    (htgt : 0 < s.targetTemp) :
    (s.currState = STATE_HEATING →
        (controlHeater s).heaterPin = true ∧ (controlHeater s).servoPos = s.targetTemp) ∧
      (s.currState = STATE_STABILIZING →
        (s.currTemp < (s.targetTemp : ℚ) →
          (controlHeater s).heaterPin = true ∧ (controlHeater s).servoPos = s.targetTemp) ∧
        ((s.targetTemp : ℚ) ≤ s.currTemp → (controlHeater s).heaterPin = false)) ∧
      (s.currState = STATE_TARGET_REACHED →
        (s.currTemp < (s.targetTemp : ℚ) - 1 / 2 → (controlHeater s).heaterPin = true) ∧
        ((s.targetTemp : ℚ) ≤ s.currTemp → (controlHeater s).heaterPin = false) ∧
        (controlHeater s).servoPos = s.targetTemp) ∧
      (s.currState = STATE_IDLE →
        (controlHeater s).heaterPin = false ∧ (controlHeater s).servoPos = 0) := by
  have hactive : ¬ (s.heaterRunning = false ∨ s.targetTemp ≤ 0) := by
    simp only [hrun, Bool.true_eq_false, false_or, not_le]; exact htgt
  refine ⟨?_, ?_, ?_, ?_⟩
  · intro hm
    simp [controlHeater, hm, hactive]
  · intro hm
    constructor
    · intro hlow
      simp [controlHeater, hm, hactive, hlow]
    · intro hhigh
      simp [controlHeater, hm, hactive, not_lt.mpr hhigh]
  · intro hm
    refine ⟨?_, ?_, ?_⟩
    · intro hlow
      simp only [controlHeater, hm, hactive, reduceCtorEq, if_false, if_true, if_pos hlow]
    · intro hhigh
      have hnot : ¬ s.currTemp < (s.targetTemp : ℚ) - 1 / 2 := by linarith
      simp only [controlHeater, hm, hactive, reduceCtorEq, if_false, if_true, if_neg hnot,
        if_pos hhigh]
    · simp only [controlHeater, hm, hactive, reduceCtorEq, if_false, if_true]
  · intro hm
    simp [controlHeater, hm, hactive]

/-- C14, at concrete states: heating towards 100 degrees at 90, and holding
100 degrees at 100. -/
theorem actuation_policy_witness :
    ((controlHeater { heatingAt90 with heaterPin := false, servoPos := 0 }).heaterPin = true ∧
        (controlHeater { heatingAt90 with heaterPin := false, servoPos := 0 }).servoPos = 100) ∧
      (controlHeater { holdingAt100 with heaterPin := true }).heaterPin = false ∧
      (controlHeater { holdingAt100 with heaterPin := true }).servoPos = 100 :=
  ⟨(actuation_policy { heatingAt90 with heaterPin := false, servoPos := 0 } rfl
      (by decide)).1 rfl,
    ((actuation_policy { holdingAt100 with heaterPin := true } rfl (by decide)).2.2.1 rfl).2.1
      (by decide!),
    ((actuation_policy { holdingAt100 with heaterPin := true } rfl (by decide)).2.2.1 rfl).2.2⟩

/-! ## What `controlHeater` carries over from the previous tick -/

/-- C15 as stated fails: two controllers in `STATE_TARGET_REACHED` with target
100 and reading 99.75 that differ only in the heater level commanded before
are left by `controlHeater` with different heater levels. -/
theorem outputs_pure_counterexample :
    ({ holdingJustBelow with heaterPin := true } : Controller).currState
        = holdingJustBelow.currState ∧
      ({ holdingJustBelow with heaterPin := true } : Controller).targetTemp
        = holdingJustBelow.targetTemp ∧
      ({ holdingJustBelow with heaterPin := true } : Controller).heaterRunning
        = holdingJustBelow.heaterRunning ∧
      ({ holdingJustBelow with heaterPin := true } : Controller).currTemp
        = holdingJustBelow.currTemp ∧
      (controlHeater { holdingJustBelow with heaterPin := true }).heaterPin
        ≠ (controlHeater holdingJustBelow).heaterPin := by
  decide!

/-- C15, amended.  For two controller states that agree on mode, target,
`heaterRunning` and reading, `controlHeater` leaves both with the same heater
level, except in `STATE_TARGET_REACHED` with an active target and
`target - 0.5 ≤ reading < target`, where each keeps the level commanded
before; and with the same actuator position, except in `STATE_STABILIZING`
with an active target and `reading ≥ target`. -/
theorem outputs_determined (a b : Controller) (hm : a.currState = b.currState)
    (ht : a.targetTemp = b.targetTemp) (hr : a.heaterRunning = b.heaterRunning)
    (hc : a.currTemp = b.currTemp) :
    (¬ (a.heaterRunning = true ∧ 0 < a.targetTemp ∧ a.currState = STATE_TARGET_REACHED ∧
          (a.targetTemp : ℚ) - 1 / 2 ≤ a.currTemp ∧ a.currTemp < (a.targetTemp : ℚ)) →
        (controlHeater a).heaterPin = (controlHeater b).heaterPin) ∧
      (¬ (a.heaterRunning = true ∧ 0 < a.targetTemp ∧ a.currState = STATE_STABILIZING ∧
          (a.targetTemp : ℚ) ≤ a.currTemp) →
        (controlHeater a).servoPos = (controlHeater b).servoPos) ∧
      ((a.heaterRunning = true ∧ 0 < a.targetTemp ∧ a.currState = STATE_TARGET_REACHED ∧
          (a.targetTemp : ℚ) - 1 / 2 ≤ a.currTemp ∧ a.currTemp < (a.targetTemp : ℚ)) →
        (controlHeater a).heaterPin = a.heaterPin ∧
          (controlHeater b).heaterPin = b.heaterPin) := by
  refine ⟨?_, ?_, ?_⟩
  · intro hband
    simp only [controlHeater, ← hm, ← ht, ← hr, ← hc]
    by_cases h1 : a.currState = STATE_OVERHEAT
    · simp only [if_pos h1]
    · by_cases h2 : a.heaterRunning = false ∨ a.targetTemp ≤ 0
      · simp only [if_neg h1, if_pos h2]
      · have hrun : a.heaterRunning = true := by
          cases hrun : a.heaterRunning
          · exact absurd (Or.inl hrun) h2
          · rfl
        have htgt : 0 < a.targetTemp := not_le.mp (fun h => h2 (Or.inr h))
        simp only [if_neg h1, if_neg h2]
        split_ifs <;> first | rfl | exact absurd ⟨hrun, htgt, ‹_›, not_lt.mp ‹_›, not_le.mp ‹_›⟩ hband
  · intro hstab
    simp only [controlHeater, ← hm, ← ht, ← hr, ← hc]
    by_cases h1 : a.currState = STATE_OVERHEAT
    · simp only [if_pos h1]
    · by_cases h2 : a.heaterRunning = false ∨ a.targetTemp ≤ 0
      · simp only [if_neg h1, if_pos h2]
      · have hrun : a.heaterRunning = true := by
          cases hrun : a.heaterRunning
          · exact absurd (Or.inl hrun) h2
          · rfl
        have htgt : 0 < a.targetTemp := not_le.mp (fun h => h2 (Or.inr h))
        simp only [if_neg h1, if_neg h2]
        split_ifs <;> first | rfl | exact absurd ⟨hrun, htgt, ‹_›, not_lt.mp ‹_›⟩ hstab
  · rintro ⟨hrun, htgt, hmode, hlo, hhi⟩
    have hactive : ¬ (a.heaterRunning = false ∨ a.targetTemp ≤ 0) := by
      simp only [hrun, Bool.true_eq_false, false_or, not_le]; exact htgt
    have hlo' : ¬ a.currTemp < (a.targetTemp : ℚ) - 1 / 2 := not_lt.mpr hlo
    have hhi' : ¬ (a.targetTemp : ℚ) ≤ a.currTemp := not_le.mpr hhi
    constructor
    · simp only [controlHeater, hmode, hactive, reduceCtorEq, if_false, if_true, if_neg hlo',
        if_neg hhi']
    · simp only [controlHeater, ← hm, ← ht, ← hr, ← hc, hmode, hactive, reduceCtorEq, if_false,
        if_true, if_neg hlo', if_neg hhi']

/-- C15 amended, at concrete states: heating towards 100 degrees, whatever
was commanded before, the heater is on and the position is 100; holding 100
degrees at 99.75 the heater level commanded before is kept. -/
theorem outputs_determined_witness :
    (controlHeater heatingAt90).heaterPin
        = (controlHeater { heatingAt90 with heaterPin := false, servoPos := 7 }).heaterPin ∧
      (controlHeater heatingAt90).servoPos
        = (controlHeater { heatingAt90 with heaterPin := false, servoPos := 7 }).servoPos ∧
      (controlHeater { holdingJustBelow with heaterPin := true }).heaterPin = true :=
  ⟨(outputs_determined heatingAt90 { heatingAt90 with heaterPin := false, servoPos := 7 }
      rfl rfl rfl rfl).1 (by decide!),
    (outputs_determined heatingAt90 { heatingAt90 with heaterPin := false, servoPos := 7 }
      rfl rfl rfl rfl).2.1 (by decide!),
    ((outputs_determined { holdingJustBelow with heaterPin := true } holdingJustBelow
      rfl rfl rfl rfl).2.2 (by decide!)).1⟩

/-! ## Sensor failures -/

/-- C16. When the sensor returns the disconnected sentinel, `readTemperature`
leaves every variable unchanged, the control tick runs `controlHeater` and
`updateSystemState` on the retained reading, and the reading is still the
retained one after the tick; when the sensor returns any other value,
`currTemp` becomes that value. -/
theorem sensor_unavailable (now : Nat) (s : Controller) :
    readTemperature DEVICE_DISCONNECTED_C s = s ∧
      controlTick DEVICE_DISCONNECTED_C now s = updateSystemState now (controlHeater s) ∧
      (controlTick DEVICE_DISCONNECTED_C now s).currTemp = s.currTemp ∧
      (∀ r : ℚ, r ≠ DEVICE_DISCONNECTED_C → (readTemperature r s).currTemp = r) := by
  have hread : readTemperature DEVICE_DISCONNECTED_C s = s := by
    simp only [readTemperature, if_true]
  refine ⟨hread, ?_, ?_, ?_⟩
  · rw [controlTick, hread]
  · rw [controlTick, hread, (updateSystemState_frame now (controlHeater s)).1,
      (controlHeater_frame s).2.1]
  · intro r hr
    simp only [readTemperature, if_neg hr]

/-- C16, at a concrete state: heating at a held reading of 90 degrees, a
tick without sensor keeps 90, a tick with the sensor at 92.5 stores 92.5. -/
theorem sensor_unavailable_witness :
    (controlTick DEVICE_DISCONNECTED_C 1000 heatingAt90).currTemp = 90 ∧
      (readTemperature (185 / 2) heatingAt90).currTemp = 185 / 2 :=
  ⟨(sensor_unavailable 1000 heatingAt90).2.2.1,
    (sensor_unavailable 1000 heatingAt90).2.2.2 (185 / 2) (by decide!)⟩

/-! ## The mode set when a setpoint is accepted -/

/-- What `processKeypad` does on the confirm key for a valid entry of decimal
digits. -/
theorem processKeypad_accept (now : Nat) (s : Controller) (hin : s.inputting = true)
    (hd : ∀ c ∈ s.tempInput, c.isDigit = true) (hv : validEntry s.tempInput) :
    processKeypad '#' now s =
      if s.currTemp < ((decimalValue s.tempInput : Int) : ℚ) - TEMP_TOLERANCE then
        setState STATE_HEATING now
          { s with targetTemp := (decimalValue s.tempInput : Int), heaterRunning := true,
                   inputting := false }
      else if isAtTarget { s with targetTemp := (decimalValue s.tempInput : Int) } then
        setState STATE_STABILIZING now
          { s with targetTemp := (decimalValue s.tempInput : Int), heaterRunning := true,
                   inputting := false }
      else
        { s with targetTemp := (decimalValue s.tempInput : Int), heaterRunning := true,
                 inputting := false } := by
  have hval := toInt_digits s.tempInput hd
  obtain ⟨hlen, hpos, hmax⟩ := hv
  have hlen' : ¬ (s.tempInput.length < 2 ∨ 3 < s.tempInput.length) := by omega
  have hrange : ¬ (toInt s.tempInput ≤ 0 ∨ MAX_TEMP < toInt s.tempInput) := by
    rw [hval]; simp only [MAX_TEMP]; omega
  have hstep : processKeypad '#' now s =
      (let s1 : Controller :=
        { s with targetTemp := toInt s.tempInput, heaterRunning := true, inputting := false }
      if s1.currTemp < (s1.targetTemp : ℚ) - TEMP_TOLERANCE then setState STATE_HEATING now s1
      else if isAtTarget s1 then setState STATE_STABILIZING now s1
      else s1) := by
    simp [processKeypad, hin, hlen', hrange]
  rw [hstep, hval]
  rfl

/-- C17 as stated fails: in `STATE_IDLE` with a reading of 80 degrees, the
accepted entry `80` leaves the mode `STATE_STABILIZING`, while
`updateSystemState` from the same mode with target 80, `heaterRunning` true
and the same reading gives `STATE_TARGET_REACHED`. -/
theorem accept_reevaluation_counterexample :
    (processKeypad '#' 500 enteringEightyAt80).targetTemp = 80 ∧
      (processKeypad '#' 500 enteringEightyAt80).currState = STATE_STABILIZING ∧
      (updateSystemState 500
        { enteringEightyAt80 with targetTemp := 80, heaterRunning := true }).currState
        = STATE_TARGET_REACHED := by
  decide!

/-- C17, amended.  When `processKeypad` accepts a setpoint entry `v`, the mode
immediately after is `STATE_HEATING` if the reading is below `v - 4`,
`STATE_STABILIZING` if the reading is within 4 of `v`, and the mode before
the entry otherwise. -/
theorem accept_reevaluation (now : Nat) (s : Controller) (hin : s.inputting = true)
    (hd : ∀ c ∈ s.tempInput, c.isDigit = true) (hv : validEntry s.tempInput) :
    (processKeypad '#' now s).currState =
      if s.currTemp < (decimalValue s.tempInput : ℚ) - 4 then STATE_HEATING
      else if |s.currTemp - (decimalValue s.tempInput : ℚ)| ≤ 4 then STATE_STABILIZING
      else s.currState := by
  rw [processKeypad_accept now s hin hd hv]
  have hat := isAtTarget_iff { s with targetTemp := (decimalValue s.tempInput : Int) }
  simp only [Int.cast_natCast] at hat ⊢
  simp only [TEMP_TOLERANCE]
  by_cases hlow : s.currTemp < (decimalValue s.tempInput : ℚ) - 4
  · simp only [if_pos hlow, setState_currState]
  · by_cases hband : |s.currTemp - (decimalValue s.tempInput : ℚ)| ≤ 4
    · simp only [if_neg hlow, hat.mpr hband, if_true, if_pos hband, setState_currState]
    · have hnot : ¬ isAtTarget { s with targetTemp := (decimalValue s.tempInput : Int) } = true :=
        fun h => hband (hat.mp h)
      simp only [if_neg hlow, hnot, Bool.false_eq_true, if_false, if_neg hband]

/-- C17 amended, at concrete entries: `80` accepted at a reading of 80 gives
`STATE_STABILIZING`. -/
theorem accept_reevaluation_witness :
    (processKeypad '#' 500 enteringEightyAt80).currState = STATE_STABILIZING :=
  (accept_reevaluation 500 enteringEightyAt80 rfl (by decide) (by decide)).trans (by decide!)

/-! ## The place of the drift-out override -/

/-- On a reading above `targetTemp + 4` the `switch` of `updateSystemState`
does nothing or sets `STATE_IDLE`. -/
theorem stateSwitch_above (stateTime now : Nat) (s : Controller)
    (hd : (s.targetTemp : ℚ) + TEMP_TOLERANCE < s.currTemp) :
    stateSwitch stateTime now s = s ∨ stateSwitch stateTime now s = setState STATE_IDLE now s := by
  have hlow : ¬ s.currTemp < (s.targetTemp : ℚ) - TEMP_TOLERANCE := by
    simp only [TEMP_TOLERANCE] at hd ⊢; linarith
  have hat : ¬ isAtTarget s = true := by
    rw [isAtTarget_iff, abs_le]; simp only [TEMP_TOLERANCE] at hd; intro h; linarith [h.2]
  cases hm : s.currState
  case STATE_OVERHEAT =>
    by_cases h : s.currTemp < ((MAX_TEMP - 5 : Int) : ℚ)
    · right
      simp only [stateSwitch, hm, if_pos h, hat, Bool.false_eq_true, if_false, if_neg hlow]
    · left
      simp only [stateSwitch, hm, if_neg h]
  all_goals
    left
    simp only [stateSwitch, hm, if_neg hlow, hat, Bool.false_eq_true, if_false, and_false]

/-- The variant with the drift-out override as the final step computes the
same state as `updateSystemState`. -/
theorem overrideLast_eq (now : Nat) (s : Controller) :
    updateSystemStateOverrideLast now s = updateSystemState now s := by
  by_cases h1 : (MAX_TEMP : ℚ) ≤ s.currTemp
  · simp only [updateSystemStateOverrideLast, updateSystemState, if_pos h1]
  · by_cases h2 : s.heaterRunning = false ∨ s.targetTemp ≤ 0
    · simp only [updateSystemStateOverrideLast, updateSystemState, if_neg h1, if_pos h2]
    · obtain ⟨htemp, htgt, -⟩ := stateSwitch_frame (ulongSub now s.stateStartTime) now s
      by_cases h3 : (s.targetTemp : ℚ) + TEMP_TOLERANCE < s.currTemp
      · have h3' : (s.targetTemp : ℚ) + 4 < s.currTemp := by simpa [TEMP_TOLERANCE] using h3
        have hidle : stateSwitch (ulongSub now s.stateStartTime) now (setState STATE_IDLE now s)
            = setState STATE_IDLE now s :=
          stateSwitch_idle_above _ now _ (setState_currState _ _ _)
            (by rw [(setState_frame _ _ _).1, (setState_frame _ _ _).2.1]; exact h3)
        simp only [updateSystemStateOverrideLast, updateSystemState, if_neg h1, if_neg h2,
          if_pos h3, htemp, htgt, if_pos h3', hidle]
        rcases stateSwitch_above (ulongSub now s.stateStartTime) now s h3 with h | h
        · rw [h]
        · rw [h, setState_idem]
      · have h3' : ¬ (s.targetTemp : ℚ) + 4 < s.currTemp := by simpa [TEMP_TOLERANCE] using h3
        simp only [updateSystemStateOverrideLast, updateSystemState, if_neg h1, if_neg h2,
          if_neg h3, htemp, htgt, if_neg h3']

/-- C18 as stated fails: there is no tick input with an active target on
which the variant that applies the drift-out override after the mode table
ends in another mode than `updateSystemState`. -/
theorem override_order_counterexample :
    ¬ ∃ (s : Controller) (now : Nat), s.heaterRunning = true ∧ 0 < s.targetTemp ∧
        (updateSystemStateOverrideLast now s).currState ≠ (updateSystemState now s).currState := by
  rintro ⟨s, now, -, -, hne⟩
  exact hne (congrArg Controller.currState (overrideLast_eq now s))

/-- C18, amended.  The order of the drift-out override does not matter: for
every tick input the variant that evaluates the mode table on the mode at the
start of the tick and applies the drift-out override as the final step leaves
the same mode, the same mode entry time and the same `lastState` as
`updateSystemState`. -/
theorem override_order_irrelevant (now : Nat) (s : Controller) :
    (updateSystemStateOverrideLast now s).currState = (updateSystemState now s).currState ∧
      (updateSystemStateOverrideLast now s).stateStartTime =
        (updateSystemState now s).stateStartTime ∧
      (updateSystemStateOverrideLast now s).lastState = (updateSystemState now s).lastState := by
  have h := overrideLast_eq now s
  exact ⟨congrArg Controller.currState h, congrArg Controller.stateStartTime h,
    congrArg Controller.lastState h⟩

/-! ## Invariants of the reachable states -/

/-- What `processKeypad` does to the target, to `heaterRunning` and to the
heater pin: nothing, or the cancel key clears all three, or an accepted entry
stores a target in `1 … 125` and sets `heaterRunning`. -/
theorem processKeypad_target_cases (key : Char) (now : Nat) (s : Controller) :
    ((processKeypad key now s).targetTemp = s.targetTemp ∧
        (processKeypad key now s).heaterRunning = s.heaterRunning ∧
        (processKeypad key now s).heaterPin = s.heaterPin) ∨
      ((processKeypad key now s).targetTemp = 0 ∧
        (processKeypad key now s).heaterRunning = false ∧
        (processKeypad key now s).heaterPin = false) ∨
      (0 < (processKeypad key now s).targetTemp ∧ (processKeypad key now s).targetTemp ≤ 125 ∧
        (processKeypad key now s).heaterRunning = true ∧
        (processKeypad key now s).heaterPin = s.heaterPin) := by
  have hset : ∀ (m : TempSystemState) (u : Controller),
      (setState m now u).targetTemp = u.targetTemp ∧
        (setState m now u).heaterRunning = u.heaterRunning ∧
        (setState m now u).heaterPin = u.heaterPin :=
    fun m u => ⟨(setState_frame m now u).2.1, (setState_frame m now u).2.2.1,
      (setState_frame m now u).2.2.2.1⟩
  have hrange : ¬ (toInt s.tempInput ≤ 0 ∨ MAX_TEMP < toInt s.tempInput) →
      0 < toInt s.tempInput ∧ toInt s.tempInput ≤ 125 := by
    intro h; simp only [MAX_TEMP] at h; omega
  have hacc : ∀ (m : TempSystemState),
      ¬ (toInt s.tempInput ≤ 0 ∨ MAX_TEMP < toInt s.tempInput) →
      0 < (setState m now { s with targetTemp := toInt s.tempInput, heaterRunning := true,
                                   inputting := false }).targetTemp ∧
        (setState m now { s with targetTemp := toInt s.tempInput, heaterRunning := true,
                                 inputting := false }).targetTemp ≤ 125 ∧
        (setState m now { s with targetTemp := toInt s.tempInput, heaterRunning := true,
                                 inputting := false }).heaterRunning = true ∧
        (setState m now { s with targetTemp := toInt s.tempInput, heaterRunning := true,
                                 inputting := false }).heaterPin = s.heaterPin := by
    intro m h
    obtain ⟨a, b, c⟩ := hset m
      { s with targetTemp := toInt s.tempInput, heaterRunning := true, inputting := false }
    exact ⟨by rw [a]; exact (hrange h).1, by rw [a]; exact (hrange h).2, b, c⟩
  simp only [processKeypad]
  split_ifs
  all_goals first
    | exact Or.inl ⟨rfl, rfl, rfl⟩
    | exact Or.inr (Or.inl (hset _ _))
    | exact Or.inr (Or.inr (hacc _ ‹_›))
    | exact Or.inr (Or.inr ⟨(hrange ‹_›).1, (hrange ‹_›).2, rfl, rfl⟩)

theorem processKeypad_targetInvariant (key : Char) (now : Nat) (s : Controller)
    (h : targetInvariant s) : targetInvariant (processKeypad key now s) := by
  unfold targetInvariant at h ⊢
  rcases processKeypad_target_cases key now s with ⟨a, b, -⟩ | ⟨a, b, -⟩ | ⟨a, a', b, -⟩
  · rw [a, b]; exact h
  · rw [a, b]; simp
  · rw [b]; exact ⟨le_of_lt a, a', by simp [a]⟩

theorem controlTick_targetInvariant (reading : ℚ) (now : Nat) (s : Controller)
    (h : targetInvariant s) : targetInvariant (controlTick reading now s) := by
  unfold targetInvariant at h ⊢
  obtain ⟨a, b⟩ := controlTick_frame reading now s
  rw [a, b]; exact h

/-- The function `updateSystemState` leaves the heater pin as it was. -/
theorem updateSystemState_heaterPin (now : Nat) (s : Controller) :
    (updateSystemState now s).heaterPin = s.heaterPin := by
  have h : updateSystemState now s =
      { updateSystemState now s with heaterPin := s.heaterPin, servoPos := s.servoPos } :=
    updateSystemState_outputs now s s.heaterPin s.servoPos
  rw [h]

/-- The function `controlHeater` leaves the heater pin HIGH only with an
active target. -/
theorem controlHeater_heaterInvariant (s : Controller) :
    heaterInvariant (controlHeater s) := by
  unfold heaterInvariant
  obtain ⟨-, -, ht, hr, -⟩ := controlHeater_frame s
  rw [ht, hr]
  intro hpin
  by_cases hactive : s.heaterRunning = false ∨ s.targetTemp ≤ 0
  · have hoff : (controlHeater s).heaterPin = false := by
      unfold controlHeater
      split_ifs <;> rfl
    rw [hoff] at hpin
    exact absurd hpin (by decide)
  · constructor
    · cases hrun : s.heaterRunning
      · exact absurd (Or.inl hrun) hactive
      · rfl
    · exact not_le.mp (fun hle => hactive (Or.inr hle))

theorem controlTick_heaterInvariant (reading : ℚ) (now : Nat) (s : Controller) :
    heaterInvariant (controlTick reading now s) := by
  have hctl := controlHeater_heaterInvariant (readTemperature reading s)
  unfold heaterInvariant at hctl ⊢
  obtain ⟨-, ht, hr⟩ := updateSystemState_frame now (controlHeater (readTemperature reading s))
  rw [controlTick, updateSystemState_heaterPin, ht, hr]
  exact hctl

theorem processKeypad_heaterInvariant (key : Char) (now : Nat) (s : Controller)
    (h : heaterInvariant s) :
    heaterInvariant (processKeypad key now s) := by
  unfold heaterInvariant at h ⊢
  rcases processKeypad_target_cases key now s with ⟨a, b, c⟩ | ⟨-, -, c⟩ | ⟨a, -, b, -⟩
  · rw [a, b, c]; exact h
  · rw [c]; intro hpin; exact absurd hpin (by decide)
  · intro _; exact ⟨b, a⟩

theorem loop_targetInvariant (key : Char) (reading : ℚ) (now : Nat) (s : Controller)
    (h : targetInvariant s) : targetInvariant (loop key reading now s) := by
  have h1 := processKeypad_targetInvariant key now s h
  have h1' : targetInvariant { processKeypad key now s with tempLastChecked := now } := h1
  have h2 := controlTick_targetInvariant reading now _ h1'
  simp only [loop]
  split_ifs
  · exact h2
  · exact h2
  · exact h1
  · exact h1

theorem loop_heaterInvariant (key : Char) (reading : ℚ) (now : Nat) (s : Controller)
    (h : heaterInvariant s) : heaterInvariant (loop key reading now s) := by
  have h1 := processKeypad_heaterInvariant key now s h
  have h2 := controlTick_heaterInvariant reading now
    { processKeypad key now s with tempLastChecked := now }
  simp only [loop]
  split_ifs
  · exact h2
  · exact h2
  · exact h1
  · exact h1

theorem runEvents_targetInvariant (events : List Event) (s : Controller)
    (h : targetInvariant s) : targetInvariant (runEvents events s) := by
  induction events generalizing s with
  | nil => exact h
  | cons e rest ih =>
    apply ih
    cases e with
    | key k now => exact processKeypad_targetInvariant k now s h
    | tick reading now => exact controlTick_targetInvariant reading now s h

theorem runLoop_targetInvariant (passes : List (Char × ℚ × Nat)) (s : Controller)
    (h : targetInvariant s) : targetInvariant (runLoop passes s) := by
  induction passes generalizing s with
  | nil => exact h
  | cons p rest ih =>
    obtain ⟨key, reading, now⟩ := p
    exact ih _ (loop_targetInvariant key reading now s h)

theorem runEvents_heaterInvariant (events : List Event) (s : Controller)
    (h : heaterInvariant s) : heaterInvariant (runEvents events s) := by
  induction events generalizing s with
  | nil => exact h
  | cons e rest ih =>
    apply ih
    cases e with
    | key k now => exact processKeypad_heaterInvariant k now s h
    | tick reading now => exact controlTick_heaterInvariant reading now s

theorem runLoop_heaterInvariant (passes : List (Char × ℚ × Nat)) (s : Controller)
    (h : heaterInvariant s) : heaterInvariant (runLoop passes s) := by
  induction passes generalizing s with
  | nil => exact h
  | cons p rest ih =>
    obtain ⟨key, reading, now⟩ := p
    exact ih _ (loop_heaterInvariant key reading now s h)

/-- C19. In every state reached from the initial state by a sequence of key
events and control ticks, in any order, and in every state reached by passes
of `loop`, `0 ≤ targetTemp ≤ 125` and `heaterRunning` is true exactly when
`targetTemp > 0`. -/
theorem target_invariant :
    (∀ events : List Event,
        0 ≤ (runEvents events initial).targetTemp ∧ (runEvents events initial).targetTemp ≤ 125 ∧
          ((runEvents events initial).heaterRunning = true ↔
            0 < (runEvents events initial).targetTemp)) ∧
      (∀ passes : List (Char × ℚ × Nat),
        0 ≤ (runLoop passes initial).targetTemp ∧ (runLoop passes initial).targetTemp ≤ 125 ∧
          ((runLoop passes initial).heaterRunning = true ↔
            0 < (runLoop passes initial).targetTemp)) := by
  have hinit : targetInvariant initial := by
    unfold targetInvariant; decide
  exact ⟨fun events => runEvents_targetInvariant events initial hinit,
    fun passes => runLoop_targetInvariant passes initial hinit⟩

/-- C20. In every state reached from the initial state (heater off, position
0, no target) by a sequence of key events and control ticks, in any order,
and in every state reached by passes of `loop`, the heater pin is HIGH only
if `heaterRunning` is true and `targetTemp > 0`. -/
theorem heater_needs_target :
    (∀ events : List Event, (runEvents events initial).heaterPin = true →
        (runEvents events initial).heaterRunning = true ∧
          0 < (runEvents events initial).targetTemp) ∧
      (∀ passes : List (Char × ℚ × Nat), (runLoop passes initial).heaterPin = true →
        (runLoop passes initial).heaterRunning = true ∧
          0 < (runLoop passes initial).targetTemp) := by
  have hinit : heaterInvariant initial := by
    unfold heaterInvariant; decide
  exact ⟨fun events => runEvents_heaterInvariant events initial hinit,
    fun passes => runLoop_heaterInvariant passes initial hinit⟩

/-- C20, on a concrete session: after target 100 is entered and two ticks have
run the heater is on with the target active; after the cancel key and one
more tick the heater is off. -/
theorem heater_needs_target_witness :
    (runEvents (cancelSession.take 7) initial).heaterPin = true ∧
      (runEvents (cancelSession.take 7) initial).heaterRunning = true ∧
      0 < (runEvents (cancelSession.take 7) initial).targetTemp ∧
      (runEvents cancelSession initial).heaterPin = false := by
  have h := heater_needs_target.1 (cancelSession.take 7) (by decide!)
  exact ⟨by decide!, h.1, h.2, by decide!⟩

/-- C19, on a concrete session: after target 100 is entered the target is 100
and `heaterRunning` is true; after the cancel key the target is 0 and
`heaterRunning` is false. -/
theorem target_invariant_witness :
    (runEvents (cancelSession.take 7) initial).targetTemp = 100 ∧
      ((runEvents (cancelSession.take 7) initial).heaterRunning = true ↔
        0 < (runEvents (cancelSession.take 7) initial).targetTemp) ∧
      (runEvents cancelSession initial).targetTemp = 0 ∧
      (runEvents cancelSession initial).heaterRunning = false := by
  have h := target_invariant.1 (cancelSession.take 7)
  exact ⟨by decide!, h.2.2, by decide!, by decide!⟩

/-! ## The dead branch of the `STATE_OVERHEAT` case -/

/-- Past its two guards, `updateSystemState` is its `switch` run on
`switchEntry`. -/
theorem updateSystemState_switchEntry (now : Nat) (s : Controller)
    (h1 : ¬ (MAX_TEMP : ℚ) ≤ s.currTemp) (h2 : ¬ (s.heaterRunning = false ∨ s.targetTemp ≤ 0)) :
    updateSystemState now s = stateSwitch (ulongSub now s.stateStartTime) now (switchEntry now s) := by
  simp only [updateSystemState, if_neg h1, if_neg h2, switchEntry]

/-- The `switch` of `updateSystemState` takes the final `else` of its
`STATE_OVERHEAT` case exactly under the conditions `overheatElseReached`
lists. -/
theorem stateSwitch_overheat_else (stateTime now : Nat) (u : Controller)
    (hm : u.currState = STATE_OVERHEAT) (hcool : u.currTemp < ((MAX_TEMP - 5 : Int) : ℚ))
    (hat : ¬ isAtTarget u = true) (hlow : ¬ u.currTemp < (u.targetTemp : ℚ) - TEMP_TOLERANCE) :
    stateSwitch stateTime now u = setState STATE_IDLE now u := by
  simp only [stateSwitch, hm, if_pos hcool, hat, Bool.false_eq_true, if_false, if_neg hlow]

/-- The `switch` of `updateSystemState` is entered in `STATE_OVERHEAT` only
when the drift-out check did not fire. -/
theorem switchEntry_overheat (now : Nat) (s : Controller)
    (hm : (switchEntry now s).currState = STATE_OVERHEAT) :
    ¬ (s.targetTemp : ℚ) + TEMP_TOLERANCE < s.currTemp ∧ switchEntry now s = s := by
  by_cases hd : (s.targetTemp : ℚ) + TEMP_TOLERANCE < s.currTemp
  · rw [switchEntry, if_pos hd, setState_currState] at hm
    exact absurd hm (by decide)
  · exact ⟨hd, by rw [switchEntry, if_neg hd]⟩

/-- C21. The final `else` of the `STATE_OVERHEAT` case of
`updateSystemState` is reached on no input; when the `switch` is entered in
`STATE_OVERHEAT` the reading is at most `targetTemp + 4`; and with an active
target every tick that goes from `STATE_OVERHEAT` to `STATE_IDLE` has a
reading below 125 and above `targetTemp + 4`, the condition of the drift-out
check. -/
theorem overheat_else_dead (now : Nat) (s : Controller) :
    ¬ overheatElseReached now s ∧
      ((switchEntry now s).currState = STATE_OVERHEAT → s.currTemp ≤ (s.targetTemp : ℚ) + 4) ∧
      (s.heaterRunning = true → 0 < s.targetTemp → s.currState = STATE_OVERHEAT →
        (updateSystemState now s).currState = STATE_IDLE →
        (s.targetTemp : ℚ) + 4 < s.currTemp ∧ s.currTemp < 125) := by
  refine ⟨?_, ?_, ?_⟩
  · rintro ⟨-, -, hm, -, hat, hlow⟩
    obtain ⟨hd, hsame⟩ := switchEntry_overheat now s hm
    rw [hsame] at hat hlow
    apply hat
    rw [isAtTarget_iff, abs_le]
    simp only [TEMP_TOLERANCE] at hd hlow
    constructor <;> linarith
  · intro hm
    have hd := (switchEntry_overheat now s hm).1
    simp only [TEMP_TOLERANCE] at hd
    exact not_lt.mp hd
  · intro hrun htgt hm hidle
    by_cases hr : s.currTemp < 125
    · by_cases hd : (s.targetTemp : ℚ) + 4 < s.currTemp
      · exact ⟨hd, hr⟩
      · rw [updateSystemState_inBand now s hrun htgt hr hd, stateSwitch_mode _ now s hd, hm] at hidle
        simp only [tableReference, if_neg hd] at hidle
        split_ifs at hidle
    · have hover : (MAX_TEMP : ℚ) ≤ s.currTemp := by
        simp only [MAX_TEMP]; push_cast; linarith
      simp only [updateSystemState, if_pos hover, setState_currState] at hidle
      exact absurd hidle (by decide)

/-- C21, at a concrete state: overheated with target 100, the tick on 115
degrees goes to `STATE_IDLE`, and 115 is above `100 + 4`. -/
theorem overheat_else_dead_witness :
    (updateSystemState 3000 { overheatedAt126 with currTemp := 115 }).currState = STATE_IDLE ∧
      ((100 : ℚ) + 4 < 115 ∧ (115 : ℚ) < 125) ∧
      ¬ overheatElseReached 3000 { overheatedAt126 with currTemp := 115 } :=
  ⟨by decide!,
    (overheat_else_dead 3000 { overheatedAt126 with currTemp := 115 }).2.2 rfl (by decide) rfl
      (by decide!),
    (overheat_else_dead 3000 { overheatedAt126 with currTemp := 115 }).1⟩

end Heater
